import Mathlib

/-!
Verification development for the stp-assembler repository: a shallow
embedding of `stp_assembler.py`, `dxf_assembler.py`, `server.py` and
`stp_to_dxf_converter.py`, together with theorems settling the frozen
claims about the natural-language specification.

Numeric values (Python floats) are embedded as rationals, so all
arithmetic identities are stated in exact arithmetic.  Trigonometric
functions used by the OpenCascade rotation constructors are kept
abstract: definitions take `cosF sinF : Rat → Rat` parameters, since
none of the claims depends on their concrete values.
-/

/-- A Python value, as far as the repository's code inspects values coming
from the parsed JSON assembly data: `None`, strings, numbers, lists and
dicts with string keys. -/
inductive PyVal where
  | pyNone : PyVal
  | pyStr : String → PyVal
  | pyNum : Rat → PyVal
  | pyList : List PyVal → PyVal
  | pyDict : List (String × PyVal) → PyVal
  deriving Repr

/-- Embedding of Python `dict.get(key, default)` on a dict represented as an
association list. -/
def pyGet (d : List (String × PyVal)) (key : String) (dflt : PyVal) : PyVal :=
  match d.lookup key with
  | some v => v
  | none => dflt

/-- Python truthiness of an embedded value (`if not products:` etc.). -/
def PyVal.isTruthy : PyVal → Bool
  | .pyNone => false
  | .pyStr s => s ≠ ""
  | .pyNum q => q ≠ 0
  | .pyList l => ¬ l.isEmpty
  | .pyDict l => ¬ l.isEmpty

/-- Embedding of `isinstance(v, list)`. -/
def PyVal.isList : PyVal → Bool
  | .pyList _ => true
  | _ => false

/-- Embedding of `isinstance(v, dict)` (the parsed assembly data must be a
dict for `.get` to work; anything else raises `AttributeError`). -/
def PyVal.isDict : PyVal → Bool
  | .pyDict _ => true
  | _ => false

/-- Embedding of Python string formatting `f"{v}"` as used on product ids
and file names.  The repository only ever formats strings it received from
JSON, so the non-string branches only need to be total. -/
def pyToStr : PyVal → String
  | .pyNone => "None"
  | .pyStr s => s
  | .pyNum q => toString q
  | .pyList _ => "[list]"
  | .pyDict _ => "[dict]"

/-- Embedding of the numeric coercion `float(v)`; modelled on numeric
values (the only well-typed inputs the front end sends), any other value
raises, which the embedding reports as `none`. -/
def pyFloat : PyVal → Option Rat
  | .pyNum q => some q
  | _ => none

/-- A 3D vector of exact coordinates. -/
structure Vec3 where
  x : Rat
  y : Rat
  z : Rat
  deriving DecidableEq, Repr

def Vec3.add (a b : Vec3) : Vec3 := ⟨a.x + b.x, a.y + b.y, a.z + b.z⟩

instance : Add Vec3 := ⟨Vec3.add⟩

def Vec3.zero : Vec3 := ⟨0, 0, 0⟩

/-- Scalar multiple of a vector. -/
def Vec3.smul (q : Rat) (v : Vec3) : Vec3 := ⟨q * v.x, q * v.y, q * v.z⟩

/-- Embedding of `float(pos[0]), float(pos[1]), float(pos[2])` on a value
expected to be a list of at least three numbers; any failure (wrong type,
too short, non-numeric component) raises in Python and is `none` here. -/
def coerceTriple (v : PyVal) : Option Vec3 :=
  match v with
  | .pyList (a :: b :: c :: _) => do
      let xq ← pyFloat a
      let yq ← pyFloat b
      let zq ← pyFloat c
      pure ⟨xq, yq, zq⟩
  | _ => none

/-- `AssemblyProduct` from `stp_assembler.py`: the per-product transform
record.  The `id`, `product_id`, `name`, `parent_id`, `child_position` and
`level` fields are stored without coercion, exactly as `__init__` does. -/
structure AssemblyProduct where
  id : PyVal
  product_id : PyVal
  name : PyVal
  position : Vec3
  rotation : Vec3
  scale : Vec3
  parent_id : PyVal
  child_position : PyVal
  level : PyVal
  deriving Repr

/-- Embedding of `AssemblyProduct.__init__(data)`: `data.get` with the
source's defaults, and `float` coercion of the three vector fields.  A
coercion failure raises in Python, reported here as `none`. -/
def AssemblyProduct.ofDict (data : List (String × PyVal)) : Option AssemblyProduct := do
  let pos ← coerceTriple (pyGet data "position" (.pyList [.pyNum 0, .pyNum 0, .pyNum 0]))
  let rot ← coerceTriple (pyGet data "rotation" (.pyList [.pyNum 0, .pyNum 0, .pyNum 0]))
  let scl ← coerceTriple (pyGet data "scale" (.pyList [.pyNum 1, .pyNum 1, .pyNum 1]))
  pure
    { id := pyGet data "id" (.pyStr "")
      product_id := pyGet data "productId" (.pyStr "")
      name := pyGet data "name" (.pyStr "")
      position := pos
      rotation := rot
      scale := scl
      parent_id := pyGet data "parentId" .pyNone
      child_position := pyGet data "childPosition" .pyNone
      level := pyGet data "level" (.pyNum 0) }

/-- `DXFProduct` from `dxf_assembler.py`; its `__init__` is textually the
same as `AssemblyProduct.__init__`. -/
structure DXFProduct where
  id : PyVal
  product_id : PyVal
  name : PyVal
  position : Vec3
  rotation : Vec3
  scale : Vec3
  parent_id : PyVal
  child_position : PyVal
  level : PyVal
  deriving Repr

/-- Embedding of `DXFProduct.__init__(data)`. -/
def DXFProduct.ofDict (data : List (String × PyVal)) : Option DXFProduct := do
  let pos ← coerceTriple (pyGet data "position" (.pyList [.pyNum 0, .pyNum 0, .pyNum 0]))
  let rot ← coerceTriple (pyGet data "rotation" (.pyList [.pyNum 0, .pyNum 0, .pyNum 0]))
  let scl ← coerceTriple (pyGet data "scale" (.pyList [.pyNum 1, .pyNum 1, .pyNum 1]))
  pure
    { id := pyGet data "id" (.pyStr "")
      product_id := pyGet data "productId" (.pyStr "")
      name := pyGet data "name" (.pyStr "")
      position := pos
      rotation := rot
      scale := scl
      parent_id := pyGet data "parentId" .pyNone
      child_position := pyGet data "childPosition" .pyNone
      level := pyGet data "level" (.pyNum 0) }

/-- The field-by-field identification of the two product classes (their
constructors are textually identical in the source). -/
def DXFProduct.toAssembly (p : DXFProduct) : AssemblyProduct :=
  { id := p.id, product_id := p.product_id, name := p.name,
    position := p.position, rotation := p.rotation, scale := p.scale,
    parent_id := p.parent_id, child_position := p.child_position,
    level := p.level }

/-- `DXFProduct.z_offset_mm`: Z position in millimetres, used for the X
translation in 2D. -/
def DXFProduct.z_offset_mm (p : DXFProduct) : Rat := p.position.z * 1000

/-- `DXFProduct.y_offset_mm`: Y position in millimetres, used for the Y
translation in 2D. -/
def DXFProduct.y_offset_mm (p : DXFProduct) : Rat := p.position.y * 1000

/-- A 3×3 matrix of rationals, the linear part of a `gp_Trsf`. -/
structure Mat3 where
  a11 : Rat
  a12 : Rat
  a13 : Rat
  a21 : Rat
  a22 : Rat
  a23 : Rat
  a31 : Rat
  a32 : Rat
  a33 : Rat
  deriving DecidableEq, Repr

def Mat3.identity : Mat3 := ⟨1, 0, 0, 0, 1, 0, 0, 0, 1⟩

def Mat3.mul (m n : Mat3) : Mat3 :=
  ⟨m.a11 * n.a11 + m.a12 * n.a21 + m.a13 * n.a31,
   m.a11 * n.a12 + m.a12 * n.a22 + m.a13 * n.a32,
   m.a11 * n.a13 + m.a12 * n.a23 + m.a13 * n.a33,
   m.a21 * n.a11 + m.a22 * n.a21 + m.a23 * n.a31,
   m.a21 * n.a12 + m.a22 * n.a22 + m.a23 * n.a32,
   m.a21 * n.a13 + m.a22 * n.a23 + m.a23 * n.a33,
   m.a31 * n.a11 + m.a32 * n.a21 + m.a33 * n.a31,
   m.a31 * n.a12 + m.a32 * n.a22 + m.a33 * n.a32,
   m.a31 * n.a13 + m.a32 * n.a23 + m.a33 * n.a33⟩

def Mat3.mulVec (m : Mat3) (v : Vec3) : Vec3 :=
  ⟨m.a11 * v.x + m.a12 * v.y + m.a13 * v.z,
   m.a21 * v.x + m.a22 * v.y + m.a23 * v.z,
   m.a31 * v.x + m.a32 * v.y + m.a33 * v.z⟩

/-- Embedding of OpenCascade's `gp_Trsf`: an affine transformation with a
linear part and a translation part; applying it to a point `p` gives
`lin * p + trans`.  (The actual `gp_Trsf` restricts the linear part to
similarities; the repository only ever builds rotations and translations,
which this embedding covers.) -/
structure GpTrsf where
  lin : Mat3
  trans : Vec3
  deriving DecidableEq, Repr

/-- A fresh `gp_Trsf()` is the identity. -/
def GpTrsf.identity : GpTrsf := ⟨Mat3.identity, Vec3.zero⟩

/-- `gp_Trsf.Multiplied`: `A.Multiplied(B)` is the composite `A * B`,
which applied to a point performs `B` first and then `A`. -/
def GpTrsf.Multiplied (a b : GpTrsf) : GpTrsf :=
  ⟨a.lin.mul b.lin, a.lin.mulVec b.trans + a.trans⟩

/-- Applying a `gp_Trsf` to a point (`gp_Pnt.Transformed`). -/
def GpTrsf.applyPnt (t : GpTrsf) (p : Vec3) : Vec3 :=
  t.lin.mulVec p + t.trans

/-- `SetTranslation(gp_Vec(tx, ty, tz))`. -/
def GpTrsf.translationOf (v : Vec3) : GpTrsf := ⟨Mat3.identity, v⟩

/-- `SetRotation` about the X axis `gp_Ax1(gp_Pnt(0,0,0), gp_Dir(1,0,0))`
by angle `a`, with abstract cosine and sine. -/
def GpTrsf.rotationX (cosF sinF : Rat → Rat) (a : Rat) : GpTrsf :=
  ⟨⟨1, 0, 0,
    0, cosF a, -(sinF a),
    0, sinF a, cosF a⟩, Vec3.zero⟩

/-- `SetRotation` about the Y axis by angle `a`. -/
def GpTrsf.rotationY (cosF sinF : Rat → Rat) (a : Rat) : GpTrsf :=
  ⟨⟨cosF a, 0, sinF a,
    0, 1, 0,
    -(sinF a), 0, cosF a⟩, Vec3.zero⟩

/-- `SetRotation` about the Z axis by angle `a`. -/
def GpTrsf.rotationZ (cosF sinF : Rat → Rat) (a : Rat) : GpTrsf :=
  ⟨⟨cosF a, -(sinF a), 0,
    sinF a, cosF a, 0,
    0, 0, 1⟩, Vec3.zero⟩

/-- `STEPAssembler._meters_to_mm`. -/
def metersToMm (meters : Rat) : Rat := meters * 1000

/-- Embedding of `STEPAssembler._create_transformation(product)`: starts
from the identity, composes (on the right, via `Multiplied`) the X, Y and
Z axis rotations whenever the corresponding angle is non-zero, and finally
composes the translation by the position converted to millimetres.  The
product's `scale` field is never consulted. -/
def createTransformation (cosF sinF : Rat → Rat) (product : AssemblyProduct) : GpTrsf :=
  let trsf0 := GpTrsf.identity
  let tx := metersToMm product.position.x
  let ty := metersToMm product.position.y
  let tz := metersToMm product.position.z
  let rx := product.rotation.x
  let ry := product.rotation.y
  let rz := product.rotation.z
  let trsf1 := if rx ≠ 0 then trsf0.Multiplied (GpTrsf.rotationX cosF sinF rx) else trsf0
  let trsf2 := if ry ≠ 0 then trsf1.Multiplied (GpTrsf.rotationY cosF sinF ry) else trsf1
  let trsf3 := if rz ≠ 0 then trsf2.Multiplied (GpTrsf.rotationZ cosF sinF rz) else trsf2
  trsf3.Multiplied (GpTrsf.translationOf ⟨tx, ty, tz⟩)

/-- A B-rep shape, abstracted to the set of points it occupies (a finite
sample list suffices for the claims). -/
def OccShape : Type := List Vec3

/-- `STEPAssembler._apply_transformation(shape, trsf)`
(`BRepBuilderAPI_Transform` moves every point of the shape). -/
def applyTransformation (shape : OccShape) (trsf : GpTrsf) : OccShape :=
  shape.map trsf.applyPnt

/-- Outcome of trying to load one product's source file during batch
import: the file may be missing on disk, reading/processing it may raise,
or it yields content. -/
inductive LoadOutcome (α : Type) where
  | missing : LoadOutcome α
  | raisedError : LoadOutcome α
  | ok : α → LoadOutcome α
  deriving DecidableEq, Repr

/-- `STEPAssembler._get_stp_path`: the file name looked up for a product,
`f"{product_id}.stp"`. -/
def stpFileName (p : AssemblyProduct) : String := pyToStr p.product_id ++ ".stp"

/-- The batch-import loop of `STEPAssembler.assemble`: a missing file or a
raised error skips the product (`continue`); a successful import appends
the transformed shape to `self.shapes`. -/
def stepLoadShapes (cosF sinF : Rat → Rat) (env : String → LoadOutcome OccShape)
    (products : List AssemblyProduct) : List OccShape :=
  products.foldl
    (fun shapes p =>
      match env (stpFileName p) with
      | .missing => shapes
      | .raisedError => shapes
      | .ok sh => shapes ++ [applyTransformation sh (createTransformation cosF sinF p)])
    []

/-- `STEPAssembler.assemble`: `False` when `self.shapes` ends up empty,
otherwise the outcome of the compound export (`exportOk`; an exception
during export is caught and yields `False`). -/
def stepAssembleResult (cosF sinF : Rat → Rat) (env : String → LoadOutcome OccShape)
    (exportOk : Bool) (products : List AssemblyProduct) : Bool :=
  let shapes := stepLoadShapes cosF sinF env products
  if shapes.isEmpty then false else exportOk

/-- A DXF modelspace entity, abstracted to a 2D reference point moved by
`entity.translate`. -/
abbrev Entity2 := Rat × Rat

/-- `entity.translate(translate_x, translate_y, 0)`. -/
def entityTranslate (tx ty : Rat) (e : Entity2) : Entity2 := (e.1 + tx, e.2 + ty)

/-- `DXFAssembler._get_dxf_path`: the file name looked up for a product,
`f"{product_id}.dxf"`. -/
def dxfFileName (p : DXFProduct) : String := pyToStr p.product_id ++ ".dxf"

/-- One iteration of the import loop of `DXFAssembler.assemble` over the
output modelspace `msp`: skip on missing file or raised error; otherwise
append the imported entities and translate the slice
`entities_list[-new_entities_count:]` by
`(first_product_z_offset - z_offset_mm, y_offset_mm)`.  Python's negative
slice makes that the whole modelspace when `new_entities_count`
is zero, and the newly appended entities otherwise. -/
def dxfProcessProduct (firstZ : Rat) (env : String → LoadOutcome (List Entity2))
    (msp : List Entity2) (product : DXFProduct) : List Entity2 :=
  match env (dxfFileName product) with
  | .missing => msp
  | .raisedError => msp
  | .ok es =>
    let appended := msp ++ es
    let tx := firstZ - product.z_offset_mm
    let ty := product.y_offset_mm
    if es.length = 0 then appended.map (entityTranslate tx ty)
    else msp ++ es.map (entityTranslate tx ty)

/-- The entities accumulated in the output modelspace by
`DXFAssembler.assemble`: the first product of the list fixes the reference
`first_product_z_offset` (whether or not its own file loads), and the loop
processes every product in order. -/
def dxfAssembleEntities (env : String → LoadOutcome (List Entity2))
    (products : List DXFProduct) : List Entity2 :=
  match products with
  | [] => []
  | p0 :: _ => products.foldl (dxfProcessProduct p0.z_offset_mm env) []

/-- `DXFAssembler.assemble`: `False` for an empty product list, `False`
when the output modelspace holds no entities, otherwise the outcome of
`saveas` (`saveOk`; an exception while saving is caught and yields
`False`). -/
def dxfAssembleResult (env : String → LoadOutcome (List Entity2))
    (saveOk : Bool) (products : List DXFProduct) : Bool :=
  match products with
  | [] => false
  | p0 :: _ =>
    let ents := products.foldl (dxfProcessProduct p0.z_offset_mm env) []
    if ents.length = 0 then false else saveOk

/-- `STPtoDXFConverter._project_points`: project 3D points to 2D for the
given view.  The four rationals are the values of `cos(radians(45))`,
`sin(radians(45))`, `sin(radians(30))` and `cos(radians(30))` used by the
isometric branch, kept abstract. -/
def projectPoints (cos45 sin45 sin30 cos30 : Rat) (points3d : List Vec3)
    (view : String) (center : Vec3) : List Entity2 :=
  points3d.map (fun p =>
    if view = "top" then (p.x - center.x, p.y - center.y)
    else if view = "front" then (p.x - center.x, p.z - center.z)
    else if view = "right" then (p.y - center.y, p.z - center.z)
    else if view = "iso" then
      let xRel := p.x - center.x
      let yRel := p.y - center.y
      let zRel := p.z - center.z
      (xRel * cos45 - yRel * sin45,
       xRel * sin45 * sin30 + yRel * cos45 * sin30 + zRel * cos30)
    else (p.x - center.x, p.y - center.y))

/-- Embedding of `os.path.splitext(s)[0]` / `Path.stem` for the file names
the repository produces (names with a real extension): everything before
the last dot, or the whole string when there is no dot. -/
def splitextStem (s : String) : String :=
  match s.toList.reverse.dropWhile (fun c => c ≠ '.') with
  | [] => s
  | _ :: rest => String.mk rest.reverse

/-- Observable file/geometry actions of `STPtoDXFConverter.convert` after
the existence check. -/
inductive ConvOp where
  | importStepFile : String → ConvOp
  | writeDxf : String → ConvOp
  deriving DecidableEq, Repr

/-- Embedding of `STPtoDXFConverter.convert`: the early return when the
input path does not exist, then the import / DXF-writing pipeline (whose
geometric internals are abstracted into the `importOk` and `savedExists`
outcomes; the byte-count details of the success message are elided). -/
def converterConvert (fileExists : String → Bool) (importOk savedExists : Bool)
    (outFolder : String) (stpPath : String) (outputName : Option String) :
    (Bool × String × String) × List ConvOp :=
  if fileExists stpPath = false then
    ((false, "", "STEP file not found: " ++ stpPath), [])
  else
    let name := match outputName with
      | some n => n
      | none => splitextStem stpPath
    let outputPath := outFolder ++ "/" ++ name ++ ".dxf"
    if importOk = false then
      ((false, "", "Failed to import STEP file"), [.importStepFile stpPath])
    else
      let ops : List ConvOp := [.importStepFile stpPath, .writeDxf outputPath]
      if savedExists then ((true, outputPath, "Successfully converted to DXF"), ops)
      else ((false, "", "DXF file was not created"), ops)

/-- Structural embedding of Python's `key.startswith('stp_')` (prefix test
on the character sequence). -/
def strStartsWith (s pre : String) : Bool := pre.data.isPrefixOf s.data

/-- Structural embedding of Python's `key[4:]` (dropping characters). -/
def strDrop (s : String) (n : Nat) : String := String.mk (s.data.drop n)

/-- Structural embedding of Python's `str.lower()`. -/
def strToLower (s : String) : String := String.mk (s.data.map Char.toLower)

/-- Structural embedding of Python's `str.endswith(suffix)`. -/
def strEndsWith (s suffix : String) : Bool := suffix.data.isSuffixOf s.data

/-- Filesystem paths, as lists of components; `/app/uploads/<sid>/f.stp`
is `["app", "uploads", sid, "f.stp"]`. -/
abbrev FsPath := List String

/-- `UPLOAD_FOLDER = '/app/uploads'` from `server.py`. -/
def uploadFolder : FsPath := ["app", "uploads"]

/-- `OUTPUT_FOLDER = '/app/output'` from `server.py`. -/
def outputFolderPath : FsPath := ["app", "output"]

/-- The filesystem actions a request handler performs, in order. -/
inductive FsOp where
  | makeDirs : FsPath → FsOp
  | saveUpload : FsPath → FsOp
  | writeFile : FsPath → FsOp
  | writeZip : FsPath → List String → FsOp
  | removeFile : FsPath → FsOp
  | removeTree : FsPath → FsOp
  deriving DecidableEq, Repr

/-- The path an `FsOp` touches. -/
def FsOp.path : FsOp → FsPath
  | .makeDirs p => p
  | .saveUpload p => p
  | .writeFile p => p
  | .writeZip p _ => p
  | .removeFile p => p
  | .removeTree p => p

/-- An HTTP response of the server: either a JSON error body (which always
carries an `error` and a `message` field) with a status code, or a file
download. -/
inductive HResponse where
  | jsonError (status : Nat) (error : String) (message : String) : HResponse
  | fileResponse (path : FsPath) (downloadName : String) : HResponse
  deriving DecidableEq, Repr

/-- What a handler produces: the response, the filesystem actions taken
while computing it, and the actions of the `call_on_close` cleanup that
runs after the response has been sent. -/
structure HandlerResult where
  response : HResponse
  ops : List FsOp
  closeOps : List FsOp
  deriving DecidableEq, Repr

/-- The request-dependent inputs of the `/assemble` handler.  `parseJson`
embeds `json.loads` (`none` = `JSONDecodeError`, whose text is
`jsonErrorMsg`); `excMsg` is the text of an `AttributeError` raised by
`.get` on a non-dict; `fileKeys` are the keys of `request.files`;
`assembleOk` and `outputExists` are the outcomes of
`STEPAssembler.assemble()` and the output-file existence check; `exc` is
an unexpected exception raised inside the try block after validation. -/
structure AssembleArgs where
  sessionId : String
  formAssemblyData : Option String
  parseJson : String → Option PyVal
  jsonErrorMsg : String
  excMsg : String
  fileKeys : List String
  secure : String → String
  assembleOk : Bool
  outputExists : Bool
  exc : Option String

/-- The items of a `pyList`; `[]` on non-lists (only used after an
`isinstance(v, list)` check). -/
def PyVal.listItems : PyVal → List PyVal
  | .pyList l => l
  | _ => []

/-- The `products` value of the parsed assembly data:
`assembly_data.get('products', [])`. -/
def productsVal (d : List (String × PyVal)) : PyVal := pyGet d "products" (.pyList [])

/-- The output base name of the parsed assembly data:
`assembly_data.get('fileName', 'Assembly')`, formatted into path strings. -/
def fileNameVal (d : List (String × PyVal)) : String :=
  pyToStr (pyGet d "fileName" (.pyStr "Assembly"))

/-- The `product.get('productId', '')` loop over the products array,
formatted as in `f"{product_id}.stp"`; `none` when some item is not a
dict, in which case `.get` raises `AttributeError`. -/
def collectProductIds : List PyVal → Option (List String)
  | [] => some []
  | .pyDict d :: rest =>
      (collectProductIds rest).map (fun tl => pyToStr (pyGet d "productId" (.pyStr "")) :: tl)
  | _ => none

/-- The file names saved into the session folder: every `request.files`
key starting with `stp_` is stored as
`secure_filename(f"{key[4:]}.stp")`. -/
def assembleSavedNames (a : AssembleArgs) : List String :=
  (a.fileKeys.filter (fun k => strStartsWith k "stp_")).map
    (fun k => a.secure ((strDrop k 4) ++ ".stp"))

/-- The `missing_files` list: product ids whose `f"{product_id}.stp"` is
not among the files just saved into the fresh session folder. -/
def assembleMissing (a : AssembleArgs) (pids : List String) : List String :=
  pids.filter (fun pid => ¬ (assembleSavedNames a).contains (pid ++ ".stp"))

/-- Embedding of the `/assemble` handler `assemble_step_files` in
`server.py`: session folder creation, the chain of validations with their
early JSON error returns, saving the uploads, running the assembler,
zipping the output with entry name `f"{file_name}.stp"`, deleting the
uncompressed STEP file, and the `call_on_close` cleanup.  The broad
`except` clause removes the session folder and answers
500 `Internal server error`. -/
def assembleHandler (a : AssembleArgs) : HandlerResult :=
  let session := uploadFolder ++ [a.sessionId]
  let ops0 : List FsOp := [.makeDirs session]
  let dataStr := a.formAssemblyData.getD ""
  if dataStr = "" then
    ⟨.jsonError 400 "No assembly data provided"
       "Please provide assemblyData field with products array", ops0, []⟩
  else
    match a.parseJson dataStr with
    | none => ⟨.jsonError 400 "Invalid JSON in assemblyData" a.jsonErrorMsg, ops0, []⟩
    | some (.pyDict d) =>
      let products := productsVal d
      let fileName := fileNameVal d
      if ¬ (products.isTruthy && products.isList) then
        ⟨.jsonError 400 "No products provided"
           "Please provide an array of products to assemble", ops0, []⟩
      else
        let ops1 := ops0 ++ (assembleSavedNames a).map (fun n => FsOp.saveUpload (session ++ [n]))
        match collectProductIds products.listItems with
        | none => ⟨.jsonError 500 "Internal server error" a.excMsg,
                   ops1 ++ [.removeTree session], []⟩
        | some pids =>
          let missing := assembleMissing a pids
          if ¬ missing.isEmpty then
            ⟨.jsonError 400 "Missing STEP files"
               ("STEP files not uploaded for products: " ++ String.intercalate ", " missing),
             ops1, []⟩
          else
            match a.exc with
            | some m => ⟨.jsonError 500 "Internal server error" m,
                         ops1 ++ [.removeTree session], []⟩
            | none =>
              let outputPath := outputFolderPath ++ [a.sessionId ++ "_" ++ fileName ++ ".stp"]
              let ops2 := ops1 ++ (if a.outputExists then [FsOp.writeFile outputPath] else [])
              if ¬ a.assembleOk then
                ⟨.jsonError 500 "Assembly failed"
                   "Failed to create STEP assembly from provided products", ops2, []⟩
              else if ¬ a.outputExists then
                ⟨.jsonError 500 "Output file not created"
                   "Assembly completed but output file was not generated", ops2, []⟩
              else
                let zipPath := outputFolderPath ++ [a.sessionId ++ "_" ++ fileName ++ ".zip"]
                ⟨.fileResponse zipPath (fileName ++ ".zip"),
                 ops2 ++ [.writeZip zipPath [fileName ++ ".stp"], .removeFile outputPath],
                 [.removeFile zipPath, .removeTree session]⟩
    | some _ => ⟨.jsonError 500 "Internal server error" a.excMsg,
                 ops0 ++ [.removeTree session], []⟩

/-- The request-dependent inputs of the `/convert-to-dxf` handler. -/
structure ConvertArgs where
  sessionId : String
  hasFile : Bool
  filename : String
  secure : String → String
  convertOk : Bool
  convertMsg : String
  outputExists : Bool
  exc : Option String

/-- Embedding of the `/convert-to-dxf` handler `convert_stp_to_dxf` in
`server.py`.  The converter's constructor re-creates the session folder
(it is its output folder); conversion internals are abstracted into
`convertOk` / `outputExists`. -/
def convertHandler (c : ConvertArgs) : HandlerResult :=
  let session := uploadFolder ++ [c.sessionId]
  let ops0 : List FsOp := [.makeDirs session]
  if ¬ c.hasFile then
    ⟨.jsonError 400 "No file provided"
       "Please provide a STEP file with field name \"file\"", ops0, []⟩
  else if c.filename = "" then
    ⟨.jsonError 400 "No file selected" "Please select a STEP file to convert", ops0, []⟩
  else
    let fname := c.secure c.filename
    if ¬ (strEndsWith (strToLower fname) ".stp" || strEndsWith (strToLower fname) ".step") then
      ⟨.jsonError 400 "Invalid file type" "Please provide a STEP file (.stp or .step)",
       ops0, []⟩
    else
      let ops1 := ops0 ++ [FsOp.saveUpload (session ++ [fname])]
      let ops2 := ops1 ++ [FsOp.makeDirs session]
      let outName := splitextStem fname
      let dxfPath := session ++ [outName ++ ".dxf"]
      let ops3 := ops2 ++ (if c.convertOk then [FsOp.writeFile dxfPath] else [])
      if ¬ c.convertOk then
        ⟨.jsonError 500 "Conversion failed" c.convertMsg, ops3, []⟩
      else if ¬ c.outputExists then
        ⟨.jsonError 500 "Output file not created"
           "DXF conversion completed but file was not generated", ops3, []⟩
      else
        match c.exc with
        | some m => ⟨.jsonError 500 "Internal server error" m,
                     ops3 ++ [.removeTree session], []⟩
        | none => ⟨.fileResponse dxfPath (outName ++ ".dxf"), ops3, [.removeTree session]⟩

/-- The request-dependent inputs of the `/convert-assembly-to-dxf`
handler. -/
structure ConvertAssemblyArgs where
  sessionId : String
  formAssemblyData : Option String
  parseJson : String → Option PyVal
  jsonErrorMsg : String
  excMsg : String
  fileKeys : List String
  secure : String → String
  assembleOk : Bool
  assemblyExists : Bool
  dxfOk : Bool
  dxfExists : Bool
  exc : Option String

/-- The saved file names of the `/convert-assembly-to-dxf` handler (same
upload loop as `/assemble`). -/
def caSavedNames (b : ConvertAssemblyArgs) : List String :=
  (b.fileKeys.filter (fun k => strStartsWith k "stp_")).map
    (fun k => b.secure ((strDrop k 4) ++ ".stp"))

/-- The `missing_files` list of the `/convert-assembly-to-dxf` handler. -/
def caMissing (b : ConvertAssemblyArgs) (pids : List String) : List String :=
  pids.filter (fun pid => ¬ (caSavedNames b).contains (pid ++ ".stp"))

/-- Embedding of the `/convert-assembly-to-dxf` handler
`convert_assembly_to_dxf` in `server.py`: assemble into the session
folder, convert to DXF (a conversion failure is only logged), zip the
STEP assembly plus the DXF when it exists, respond with the ZIP. -/
def convertAssemblyHandler (b : ConvertAssemblyArgs) : HandlerResult :=
  let session := uploadFolder ++ [b.sessionId]
  let ops0 : List FsOp := [.makeDirs session]
  let dataStr := b.formAssemblyData.getD ""
  if dataStr = "" then
    ⟨.jsonError 400 "No assembly data provided"
       "Please provide assemblyData field with products array", ops0, []⟩
  else
    match b.parseJson dataStr with
    | none => ⟨.jsonError 400 "Invalid JSON in assemblyData" b.jsonErrorMsg, ops0, []⟩
    | some (.pyDict d) =>
      let products := productsVal d
      let fileName := fileNameVal d
      if ¬ (products.isTruthy && products.isList) then
        ⟨.jsonError 400 "No products provided"
           "Please provide an array of products to assemble", ops0, []⟩
      else
        let ops1 := ops0 ++ (caSavedNames b).map (fun n => FsOp.saveUpload (session ++ [n]))
        match collectProductIds products.listItems with
        | none => ⟨.jsonError 500 "Internal server error" b.excMsg,
                   ops1 ++ [.removeTree session], []⟩
        | some pids =>
          if ¬ (caMissing b pids).isEmpty then
            ⟨.jsonError 400 "Missing STEP files"
               ("STEP files not uploaded for products: " ++
                String.intercalate ", " (caMissing b pids)),
             ops1, []⟩
          else
            match b.exc with
            | some m => ⟨.jsonError 500 "Internal server error" m,
                         ops1 ++ [.removeTree session], []⟩
            | none =>
              let assemblyStpPath := session ++ [fileName ++ ".stp"]
              let ops2 := ops1 ++ (if b.assemblyExists then [FsOp.writeFile assemblyStpPath] else [])
              if ¬ b.assembleOk || ¬ b.assemblyExists then
                ⟨.jsonError 500 "Assembly failed"
                   "Failed to create STEP assembly from provided products", ops2, []⟩
              else
                let ops3 := ops2 ++ [FsOp.makeDirs session]
                let dxfPath := session ++ [fileName ++ ".dxf"]
                let ops4 := ops3 ++ (if b.dxfOk then [FsOp.writeFile dxfPath] else [])
                let zipPath := outputFolderPath ++ [b.sessionId ++ "_" ++ fileName ++ ".zip"]
                let entries := [fileName ++ ".stp"] ++
                  (if b.dxfOk && b.dxfExists then [fileName ++ ".dxf"] else [])
                ⟨.fileResponse zipPath (fileName ++ ".zip"),
                 ops4 ++ [.writeZip zipPath entries],
                 [.removeFile zipPath, .removeTree session]⟩
    | some _ => ⟨.jsonError 500 "Internal server error" b.excMsg,
                 ops0 ++ [.removeTree session], []⟩

/-- The validation failures that `assemble_step_files` answers with
HTTP 400: assembly data absent (or empty, which Python's truthiness test
treats the same way), invalid JSON, a missing / empty / non-list
`products` value, or a required STEP file that was not uploaded. -/
def assembleBadRequest (a : AssembleArgs) : Prop :=
  a.formAssemblyData.getD "" = "" ∨
  (a.formAssemblyData.getD "" ≠ "" ∧ a.parseJson (a.formAssemblyData.getD "") = none) ∨
  (∃ d, a.formAssemblyData.getD "" ≠ "" ∧
    a.parseJson (a.formAssemblyData.getD "") = some (.pyDict d) ∧
    ((productsVal d).isTruthy && (productsVal d).isList) = false) ∨
  (∃ d pids, a.formAssemblyData.getD "" ≠ "" ∧
    a.parseJson (a.formAssemblyData.getD "") = some (.pyDict d) ∧
    ((productsVal d).isTruthy && (productsVal d).isList) = true ∧
    collectProductIds (productsVal d).listItems = some pids ∧
    (assembleMissing a pids).isEmpty = false)

/-- The failures that `assemble_step_files` answers with HTTP 500: a
failed assembly, a missing output file, or an unexpected exception (which
includes `json.loads` yielding a non-dict and a non-dict entry in the
products array, both of which make `.get` raise `AttributeError`). -/
def assembleServerError (a : AssembleArgs) : Prop :=
  (∃ v, a.formAssemblyData.getD "" ≠ "" ∧
    a.parseJson (a.formAssemblyData.getD "") = some v ∧ v.isDict = false) ∨
  (∃ d, a.formAssemblyData.getD "" ≠ "" ∧
    a.parseJson (a.formAssemblyData.getD "") = some (.pyDict d) ∧
    ((productsVal d).isTruthy && (productsVal d).isList) = true ∧
    collectProductIds (productsVal d).listItems = none) ∨
  (∃ d pids, a.formAssemblyData.getD "" ≠ "" ∧
    a.parseJson (a.formAssemblyData.getD "") = some (.pyDict d) ∧
    ((productsVal d).isTruthy && (productsVal d).isList) = true ∧
    collectProductIds (productsVal d).listItems = some pids ∧
    (assembleMissing a pids).isEmpty = true ∧
    (a.exc ≠ none ∨ a.assembleOk = false ∨ a.outputExists = false))

/-- The session folder of a request: `os.path.join(UPLOAD_FOLDER, session_id)`. -/
def sessionPathOf (sid : String) : FsPath := uploadFolder ++ [sid]

/-- Constant cosine 1, a concrete trigonometric interpretation satisfying
`cos 0 = 1` used to instantiate theorems at concrete inputs. -/
def cosOne : Rat → Rat := fun _ => 1

/-- Constant sine 0, satisfying `sin 0 = 0`. -/
def sinZero : Rat → Rat := fun _ => 0

/-- A transform record with a non-unit scale and no rotation or
translation, as the front end would submit for a part scaled by 2. -/
def scaledProductInput : AssemblyProduct :=
  { id := .pyStr "p1", product_id := .pyStr "382090006301", name := .pyStr "Scaled part",
    position := Vec3.zero, rotation := Vec3.zero, scale := ⟨2, 2, 2⟩,
    parent_id := .pyNone, child_position := .pyNone, level := .pyNum 0 }

/-- A DXF product record at a given position with a given product id
(remaining fields as the front-end defaults). -/
def mkDxfProduct (pid : String) (pos : Vec3) : DXFProduct :=
  { id := .pyStr pid, product_id := .pyStr pid, name := .pyStr pid,
    position := pos, rotation := Vec3.zero, scale := ⟨1, 1, 1⟩,
    parent_id := .pyNone, child_position := .pyNone, level := .pyNum 0 }

/-- A STEP product record at a given position/rotation with a given
product id. -/
def mkStepProduct (pid : String) (pos rot : Vec3) : AssemblyProduct :=
  { id := .pyStr pid, product_id := .pyStr pid, name := .pyStr pid,
    position := pos, rotation := rot, scale := ⟨1, 1, 1⟩,
    parent_id := .pyNone, child_position := .pyNone, level := .pyNum 0 }

/-- Reference product of the DXF counterexamples: at the origin, its file
holds one entity at `(0, 0)`. -/
def dxfRefProduct : DXFProduct := mkDxfProduct "ref" ⟨0, 0, 0⟩

/-- A product at `z = 1 m` whose DXF file is read successfully but holds
zero entities. -/
def dxfEmptyProduct : DXFProduct := mkDxfProduct "empty" ⟨0, 0, 1⟩

/-- Filesystem for the DXF counterexamples: `ref.dxf` holds one entity at
the origin, `empty.dxf` is a valid but empty drawing, everything else is
missing. -/
def dxfEnvCex : String → LoadOutcome (List Entity2) := fun name =>
  if name = "ref.dxf" then .ok [(0, 0)]
  else if name = "empty.dxf" then .ok []
  else .missing

/-- Filesystem for the DXF witnesses: two non-empty drawings. -/
def dxfEnvW : String → LoadOutcome (List Entity2) := fun name =>
  if name = "a.dxf" then .ok [(1, 1)]
  else if name = "b.dxf" then .ok [(2, 3)]
  else .missing

def dxfProdA : DXFProduct := mkDxfProduct "a" ⟨0, 2, 5⟩

def dxfProdB : DXFProduct := mkDxfProduct "b" ⟨0, 1, 3⟩

/-- Filesystem for the STEP witnesses: only `a.stp` exists. -/
def stepEnvW : String → LoadOutcome OccShape := fun name =>
  if name = "a.stp" then .ok [⟨0, 0, 0⟩] else .missing

def stepProdA : AssemblyProduct := mkStepProduct "a" ⟨1, 0, 0⟩ Vec3.zero

def stepProdB : AssemblyProduct := mkStepProduct "b" ⟨0, 0, 0⟩ Vec3.zero

/-- Parsed assembly data of the successful `/assemble` request used as a
concrete instance: one product with id `a`, output name `F`. -/
def assembleDictOk : List (String × PyVal) :=
  [("products", .pyList [.pyDict [("productId", .pyStr "a")]]),
   ("fileName", .pyStr "F")]

/-- A fully valid `/assemble` request whose assembly succeeds. -/
def assembleArgsOk : AssembleArgs :=
  { sessionId := "s1"
    formAssemblyData := some "body"
    parseJson := fun _ => some (.pyDict assembleDictOk)
    jsonErrorMsg := "decode error"
    excMsg := "attribute error"
    fileKeys := ["stp_a"]
    secure := fun s => s
    assembleOk := true
    outputExists := true
    exc := none }

/-- An `/assemble` request with no `assemblyData` form field at all. -/
def assembleArgsNoData : AssembleArgs :=
  { sessionId := "s0"
    formAssemblyData := none
    parseJson := fun _ => none
    jsonErrorMsg := "decode error"
    excMsg := "attribute error"
    fileKeys := []
    secure := fun s => s
    assembleOk := false
    outputExists := false
    exc := none }

/-- A `/convert-to-dxf` request that fails validation (no file field). -/
def convertArgsNoFile : ConvertArgs :=
  { sessionId := "s2"
    hasFile := false
    filename := ""
    secure := fun s => s
    convertOk := false
    convertMsg := "conversion failed"
    outputExists := false
    exc := none }

/-- A fully valid `/convert-to-dxf` request whose conversion succeeds. -/
def convertArgsOk : ConvertArgs :=
  { sessionId := "s3"
    hasFile := true
    filename := "part.stp"
    secure := fun s => s
    convertOk := true
    convertMsg := "ok"
    outputExists := true
    exc := none }

/-- A fully valid `/convert-assembly-to-dxf` request that succeeds. -/
def caArgsOk : ConvertAssemblyArgs :=
  { sessionId := "s4"
    formAssemblyData := some "body"
    parseJson := fun _ => some (.pyDict assembleDictOk)
    jsonErrorMsg := "decode error"
    excMsg := "attribute error"
    fileKeys := ["stp_a"]
    secure := fun s => s
    assembleOk := true
    assemblyExists := true
    dxfOk := true
    dxfExists := true
    exc := none }

/-- The product dict of the constructor witness: a product id and a
position, no other keys. -/
def productDictW : List (String × PyVal) :=
  [("productId", .pyStr "x"),
   ("position", .pyList [.pyNum 1, .pyNum 2, .pyNum 3])]

/-- The session-folder discipline of a request handler: the first
filesystem action creates the session folder; every uploaded file is
saved inside it; the folder is removed (during the request or in the
close callback) exactly when the response is a file download or a
500 `Internal server error` (the unexpected-exception answer) — handled
validation errors leave the folder behind; every touched path lies in the
handler's own session folder or in the shared output folder; and no path
of another session's folder is touched. -/
def handlerSessionDiscipline (r : HandlerResult) (sid : String) : Prop :=
  r.ops.head? = some (.makeDirs (sessionPathOf sid)) ∧
  (∀ q, FsOp.saveUpload q ∈ r.ops → ∃ n, q = sessionPathOf sid ++ [n]) ∧
  ((FsOp.removeTree (sessionPathOf sid) ∈ r.ops ∨
    FsOp.removeTree (sessionPathOf sid) ∈ r.closeOps) ↔
      ((∃ p dn, r.response = .fileResponse p dn) ∨
       (∃ m, r.response = .jsonError 500 "Internal server error" m))) ∧
  (∀ op ∈ r.ops ++ r.closeOps,
    (FsOp.path op).take 3 = sessionPathOf sid ∨
    (FsOp.path op).take 2 = outputFolderPath) ∧
  (∀ sid2, sid2 ≠ sid → ∀ op ∈ r.ops ++ r.closeOps,
    (FsOp.path op).take 3 ≠ sessionPathOf sid2)

theorem Vec3.add_def (a b : Vec3) : a + b = ⟨a.x + b.x, a.y + b.y, a.z + b.z⟩ := rfl

theorem Vec3.add_zero_right (v : Vec3) : v + Vec3.zero = v := by
  cases v; simp [Vec3.add_def, Vec3.zero]

theorem Mat3.mul_identity_left (m : Mat3) : Mat3.identity.mul m = m := by
  cases m; simp [Mat3.mul, Mat3.identity]

theorem Mat3.mul_identity_right (m : Mat3) : m.mul Mat3.identity = m := by
  cases m; simp [Mat3.mul, Mat3.identity]

theorem Mat3.identity_mulVec (v : Vec3) : Mat3.identity.mulVec v = v := by
  cases v; simp [Mat3.mulVec, Mat3.identity]

theorem Mat3.mulVec_zero (m : Mat3) : m.mulVec Vec3.zero = Vec3.zero := by
  simp [Mat3.mulVec, Vec3.zero]

theorem GpTrsf.identity_Multiplied (t : GpTrsf) : GpTrsf.identity.Multiplied t = t := by
  cases t with
  | mk lin trans =>
    simp [GpTrsf.Multiplied, GpTrsf.identity, Mat3.mul_identity_left, Mat3.identity_mulVec,
      Vec3.add_zero_right]

theorem GpTrsf.Multiplied_applyPnt (a b : GpTrsf) (p : Vec3) :
    (a.Multiplied b).applyPnt p = a.applyPnt (b.applyPnt p) := by
  cases a with
  | mk la ta =>
    cases b with
    | mk lb tb =>
      cases la; cases lb; cases ta; cases tb; cases p
      simp [GpTrsf.Multiplied, GpTrsf.applyPnt, Mat3.mul, Mat3.mulVec, Vec3.add_def,
        Vec3.mk.injEq]
      refine ⟨by ring, by ring, by ring⟩

theorem GpTrsf.translationOf_applyPnt (v p : Vec3) :
    (GpTrsf.translationOf v).applyPnt p = p + v := by
  simp [GpTrsf.translationOf, GpTrsf.applyPnt, Mat3.identity_mulVec]

theorem GpTrsf.rotationX_zero (cosF sinF : Rat → Rat) (h1 : cosF 0 = 1) (h0 : sinF 0 = 0) :
    GpTrsf.rotationX cosF sinF 0 = GpTrsf.identity := by
  simp [GpTrsf.rotationX, GpTrsf.identity, Mat3.identity, h1, h0]

theorem GpTrsf.rotationY_zero (cosF sinF : Rat → Rat) (h1 : cosF 0 = 1) (h0 : sinF 0 = 0) :
    GpTrsf.rotationY cosF sinF 0 = GpTrsf.identity := by
  simp [GpTrsf.rotationY, GpTrsf.identity, Mat3.identity, h1, h0]

theorem GpTrsf.rotationZ_zero (cosF sinF : Rat → Rat) (h1 : cosF 0 = 1) (h0 : sinF 0 = 0) :
    GpTrsf.rotationZ cosF sinF 0 = GpTrsf.identity := by
  simp [GpTrsf.rotationZ, GpTrsf.identity, Mat3.identity, h1, h0]

theorem GpTrsf.Multiplied_identity (t : GpTrsf) : t.Multiplied GpTrsf.identity = t := by
  cases t with
  | mk lin trans =>
    simp [GpTrsf.Multiplied, GpTrsf.identity, Mat3.mul_identity_right, Mat3.mulVec_zero]
    cases trans; simp [Vec3.add_def, Vec3.zero]

theorem GpTrsf.Multiplied_translation_trans (r : GpTrsf) (hr : r.trans = Vec3.zero) (v : Vec3) :
    (r.Multiplied (GpTrsf.translationOf v)).trans =
      (r.Multiplied (GpTrsf.translationOf v)).lin.mulVec v := by
  simp [GpTrsf.Multiplied, GpTrsf.translationOf, Mat3.mul_identity_right, hr,
    Vec3.add_zero_right]

theorem GpTrsf.Multiplied_trans_zero (a b : GpTrsf)
    (ha : a.trans = Vec3.zero) (hb : b.trans = Vec3.zero) :
    (a.Multiplied b).trans = Vec3.zero := by
  simp [GpTrsf.Multiplied, ha, hb, Mat3.mulVec_zero, Vec3.add_zero_right]

/-- Claim C1 (code_bug evidence): for the product whose caller-supplied
scale is `(2, 2, 2)` (no rotation, no translation), the transformation
`STEPAssembler._create_transformation` builds is the identity, and
`_apply_transformation` therefore leaves every point of the shape where it
was: the scale is silently ignored, although the method's own docstring
lists scaling as step 1 of the transformation order. -/
theorem c1_scale_ignored (cosF sinF : Rat → Rat) :
    scaledProductInput.scale = ⟨2, 2, 2⟩ ∧
    createTransformation cosF sinF scaledProductInput = GpTrsf.identity ∧
    applyTransformation [⟨1, 1, 1⟩] (createTransformation cosF sinF scaledProductInput) =
      [⟨1, 1, 1⟩] ∧
    Vec3.smul 2 ⟨1, 1, 1⟩ ≠ ⟨1, 1, 1⟩ := by
  have hc : createTransformation cosF sinF scaledProductInput = GpTrsf.identity := by
    simp only [createTransformation, scaledProductInput, Vec3.zero, metersToMm]
    norm_num
    exact GpTrsf.identity_Multiplied _
  refine ⟨rfl, hc, ?_, by norm_num [Vec3.smul, Vec3.mk.injEq]⟩
  rw [hc]
  simp [applyTransformation, GpTrsf.applyPnt, GpTrsf.identity, Mat3.identity_mulVec,
    Vec3.add_zero_right]

/-- Claim C4: the transformation built by
`STEPAssembler._create_transformation` equals the composite
`Rx * Ry * Rz * T` (rotations multiplied on the left of the translation),
so applied to a point `q` it yields `Rx(Ry(Rz(q + t)))` with `t` the
position scaled by 1000; for zero rotation it is the pure translation by
`1000 * position`, and in general its effective translation component is
the rotated `t` (its linear part applied to `t`), not `t` itself. -/
theorem c4_transform_composition (cosF sinF : Rat → Rat)
    (h1 : cosF 0 = 1) (h0 : sinF 0 = 0) (prod : AssemblyProduct) :
    createTransformation cosF sinF prod =
      (((GpTrsf.rotationX cosF sinF prod.rotation.x).Multiplied
        (GpTrsf.rotationY cosF sinF prod.rotation.y)).Multiplied
        (GpTrsf.rotationZ cosF sinF prod.rotation.z)).Multiplied
        (GpTrsf.translationOf ⟨metersToMm prod.position.x, metersToMm prod.position.y,
          metersToMm prod.position.z⟩) ∧
    (∀ q : Vec3, (createTransformation cosF sinF prod).applyPnt q =
      (GpTrsf.rotationX cosF sinF prod.rotation.x).applyPnt
        ((GpTrsf.rotationY cosF sinF prod.rotation.y).applyPnt
          ((GpTrsf.rotationZ cosF sinF prod.rotation.z).applyPnt
            (q + ⟨metersToMm prod.position.x, metersToMm prod.position.y,
              metersToMm prod.position.z⟩)))) ∧
    (prod.rotation = Vec3.zero →
      createTransformation cosF sinF prod =
        GpTrsf.translationOf (Vec3.smul 1000 prod.position)) ∧
    (createTransformation cosF sinF prod).trans =
      (createTransformation cosF sinF prod).lin.mulVec
        ⟨metersToMm prod.position.x, metersToMm prod.position.y,
          metersToMm prod.position.z⟩ := by
  have ha : createTransformation cosF sinF prod =
      (((GpTrsf.rotationX cosF sinF prod.rotation.x).Multiplied
        (GpTrsf.rotationY cosF sinF prod.rotation.y)).Multiplied
        (GpTrsf.rotationZ cosF sinF prod.rotation.z)).Multiplied
        (GpTrsf.translationOf ⟨metersToMm prod.position.x, metersToMm prod.position.y,
          metersToMm prod.position.z⟩) := by
    by_cases hx : prod.rotation.x = 0 <;> by_cases hy : prod.rotation.y = 0 <;>
      by_cases hz : prod.rotation.z = 0 <;>
      simp [createTransformation, hx, hy, hz,
        GpTrsf.rotationX_zero cosF sinF h1 h0, GpTrsf.rotationY_zero cosF sinF h1 h0,
        GpTrsf.rotationZ_zero cosF sinF h1 h0, GpTrsf.identity_Multiplied,
        GpTrsf.Multiplied_identity]
  have htrz : ((((GpTrsf.rotationX cosF sinF prod.rotation.x).Multiplied
        (GpTrsf.rotationY cosF sinF prod.rotation.y)).Multiplied
        (GpTrsf.rotationZ cosF sinF prod.rotation.z))).trans = Vec3.zero := by
    apply GpTrsf.Multiplied_trans_zero
    · apply GpTrsf.Multiplied_trans_zero <;> rfl
    · rfl
  refine ⟨ha, ?_, ?_, ?_⟩
  · intro q
    rw [ha, GpTrsf.Multiplied_applyPnt, GpTrsf.Multiplied_applyPnt,
      GpTrsf.Multiplied_applyPnt, GpTrsf.translationOf_applyPnt]
  · intro hrot
    have hx : prod.rotation.x = 0 := by rw [hrot]; rfl
    have hy : prod.rotation.y = 0 := by rw [hrot]; rfl
    have hz : prod.rotation.z = 0 := by rw [hrot]; rfl
    simp only [createTransformation, hx, hy, hz, ne_eq, not_true_eq_false, if_false,
      GpTrsf.identity_Multiplied]
    simp [Vec3.smul, metersToMm, GpTrsf.translationOf, Vec3.mk.injEq, mul_comm]
  · rw [ha]
    exact GpTrsf.Multiplied_translation_trans _ htrz _

/-- Witness for C4: at the concrete trigonometric interpretation
`cosOne`/`sinZero` and the product at position `(1, 2, 3)` with zero
rotation, the built transformation is the pure translation by
`(1000, 2000, 3000)`. -/
theorem c4_transform_composition_witness :
    cosOne 0 = 1 ∧ sinZero 0 = 0 ∧
    createTransformation cosOne sinZero (mkStepProduct "w" ⟨1, 2, 3⟩ Vec3.zero) =
      GpTrsf.translationOf (Vec3.smul 1000 ⟨1, 2, 3⟩) :=
  ⟨rfl, rfl,
    (c4_transform_composition cosOne sinZero rfl rfl
      (mkStepProduct "w" ⟨1, 2, 3⟩ Vec3.zero)).2.2.1 rfl⟩

/-- Claim C9: `_project_points` preserves the number of points, and any
view string outside top/front/right/iso falls through to the top-view
projection `(x - cx, y - cy)`. -/
theorem c9_project_points_default (cos45 sin45 sin30 cos30 : Rat)
    (pts : List Vec3) (view : String) (center : Vec3) :
    (projectPoints cos45 sin45 sin30 cos30 pts view center).length = pts.length ∧
    (view ≠ "top" → view ≠ "front" → view ≠ "right" → view ≠ "iso" →
      projectPoints cos45 sin45 sin30 cos30 pts view center =
        pts.map (fun p => (p.x - center.x, p.y - center.y))) := by
  constructor
  · simp [projectPoints]
  · intro h1 h2 h3 h4
    simp [projectPoints, h1, h2, h3, h4]

/-- Witness for C9: the unknown view string `"section"` projects one point
exactly as the top view would. -/
theorem c9_project_points_default_witness :
    (projectPoints 1 0 0 1 [⟨1, 2, 3⟩] "section" ⟨0, 0, 0⟩).length = 1 ∧
    projectPoints 1 0 0 1 [⟨1, 2, 3⟩] "section" ⟨0, 0, 0⟩ =
      [((1 : Rat) - 0, (2 : Rat) - 0)] := by
  have h := c9_project_points_default 1 0 0 1 [⟨1, 2, 3⟩] "section" ⟨0, 0, 0⟩
  refine ⟨h.1, ?_⟩
  rw [h.2 (by decide) (by decide) (by decide) (by decide)]
  rfl

/-- Claim C10: when the input path does not exist,
`STPtoDXFConverter.convert` returns `(False, "", message)` with a message
naming the missing file, importing nothing and writing nothing. -/
theorem c10_convert_missing_input (fileExists : String → Bool)
    (importOk savedExists : Bool) (outFolder stpPath : String)
    (outputName : Option String) (h : fileExists stpPath = false) :
    converterConvert fileExists importOk savedExists outFolder stpPath outputName =
      ((false, "", "STEP file not found: " ++ stpPath), []) := by
  simp [converterConvert, h]

/-- Witness for C10: on an empty filesystem, converting `model.stp`
fails with the not-found message and performs no operation. -/
theorem c10_convert_missing_input_witness :
    (fun _ : String => false) "model.stp" = false ∧
    converterConvert (fun _ => false) true true "out" "model.stp" none =
      ((false, "", "STEP file not found: " ++ "model.stp"), []) :=
  ⟨rfl, c10_convert_missing_input (fun _ => false) true true "out" "model.stp" none rfl⟩

/-- Claim C7: constructing an `AssemblyProduct` (or `DXFProduct`) coerces
each component of `position`/`rotation`/`scale` to float, substitutes the
defaults `[0,0,0]`, `[0,0,0]`, `[1,1,1]`, `''` (id, productId, name),
`0` (level) and `None` (parentId, childPosition) for absent keys, and
enforces nothing else: any dict whose three vector fields coerce yields a
product, and the `DXFProduct` constructor produces the very same record
field for field. -/
theorem c7_product_record (data : List (String × PyVal)) (p : AssemblyProduct)
    (hp : AssemblyProduct.ofDict data = some p) :
    (data.lookup "position" = none → p.position = ⟨0, 0, 0⟩) ∧
    (data.lookup "rotation" = none → p.rotation = ⟨0, 0, 0⟩) ∧
    (data.lookup "scale" = none → p.scale = ⟨1, 1, 1⟩) ∧
    (∀ a b c rest, data.lookup "position" =
        some (.pyList (.pyNum a :: .pyNum b :: .pyNum c :: rest)) → p.position = ⟨a, b, c⟩) ∧
    (∀ a b c rest, data.lookup "rotation" =
        some (.pyList (.pyNum a :: .pyNum b :: .pyNum c :: rest)) → p.rotation = ⟨a, b, c⟩) ∧
    (∀ a b c rest, data.lookup "scale" =
        some (.pyList (.pyNum a :: .pyNum b :: .pyNum c :: rest)) → p.scale = ⟨a, b, c⟩) ∧
    (data.lookup "id" = none → p.id = .pyStr "") ∧
    (data.lookup "productId" = none → p.product_id = .pyStr "") ∧
    (data.lookup "name" = none → p.name = .pyStr "") ∧
    (data.lookup "level" = none → p.level = .pyNum 0) ∧
    (data.lookup "parentId" = none → p.parent_id = .pyNone) ∧
    (data.lookup "childPosition" = none → p.child_position = .pyNone) ∧
    (∀ dd : List (String × PyVal),
      (coerceTriple (pyGet dd "position" (.pyList [.pyNum 0, .pyNum 0, .pyNum 0]))).isSome →
      (coerceTriple (pyGet dd "rotation" (.pyList [.pyNum 0, .pyNum 0, .pyNum 0]))).isSome →
      (coerceTriple (pyGet dd "scale" (.pyList [.pyNum 1, .pyNum 1, .pyNum 1]))).isSome →
      (AssemblyProduct.ofDict dd).isSome) ∧
    (∀ dd : List (String × PyVal),
      (DXFProduct.ofDict dd).map DXFProduct.toAssembly = AssemblyProduct.ofDict dd) := by
  simp only [AssemblyProduct.ofDict, Option.pure_def, Option.bind_eq_bind,
    Option.bind_eq_some, Option.some.injEq] at hp
  obtain ⟨pos, hpos, rot, hrot, scl, hscl, hrec⟩ := hp
  subst hrec
  refine ⟨?_, ?_, ?_, ?_, ?_, ?_, ?_, ?_, ?_, ?_, ?_, ?_, ?_, ?_⟩
  · intro h; simp [pyGet, h, coerceTriple, pyFloat] at hpos; simp [← hpos]
  · intro h; simp [pyGet, h, coerceTriple, pyFloat] at hrot; simp [← hrot]
  · intro h; simp [pyGet, h, coerceTriple, pyFloat] at hscl; simp [← hscl]
  · intro a b c rest h; simp [pyGet, h, coerceTriple, pyFloat] at hpos; simp [← hpos]
  · intro a b c rest h; simp [pyGet, h, coerceTriple, pyFloat] at hrot; simp [← hrot]
  · intro a b c rest h; simp [pyGet, h, coerceTriple, pyFloat] at hscl; simp [← hscl]
  · intro h; simp [pyGet, h]
  · intro h; simp [pyGet, h]
  · intro h; simp [pyGet, h]
  · intro h; simp [pyGet, h]
  · intro h; simp [pyGet, h]
  · intro h; simp [pyGet, h]
  · intro dd h1 h2 h3
    rw [Option.isSome_iff_exists] at h1 h2 h3
    obtain ⟨v1, hv1⟩ := h1
    obtain ⟨v2, hv2⟩ := h2
    obtain ⟨v3, hv3⟩ := h3
    simp [AssemblyProduct.ofDict, hv1, hv2, hv3]
  · intro dd
    cases hv1 : coerceTriple (pyGet dd "position" (.pyList [.pyNum 0, .pyNum 0, .pyNum 0])) <;>
      cases hv2 : coerceTriple (pyGet dd "rotation" (.pyList [.pyNum 0, .pyNum 0, .pyNum 0])) <;>
      cases hv3 : coerceTriple (pyGet dd "scale" (.pyList [.pyNum 1, .pyNum 1, .pyNum 1])) <;>
      simp [AssemblyProduct.ofDict, DXFProduct.ofDict, DXFProduct.toAssembly, hv1, hv2, hv3]

/-- Witness for C7: the dict with only a product id and a position yields
the record with the coerced position, the scale default and the empty-id
default. -/
theorem c7_product_record_witness :
    AssemblyProduct.ofDict productDictW = some
      { id := .pyStr "", product_id := .pyStr "x", name := .pyStr "",
        position := ⟨1, 2, 3⟩, rotation := ⟨0, 0, 0⟩, scale := ⟨1, 1, 1⟩,
        parent_id := .pyNone, child_position := .pyNone, level := .pyNum 0 } ∧
    ({ id := .pyStr "", product_id := .pyStr "x", name := .pyStr "",
       position := ⟨1, 2, 3⟩, rotation := ⟨0, 0, 0⟩, scale := ⟨1, 1, 1⟩,
       parent_id := .pyNone, child_position := .pyNone,
       level := .pyNum 0 } : AssemblyProduct).position = ⟨1, 2, 3⟩ ∧
    ({ id := .pyStr "", product_id := .pyStr "x", name := .pyStr "",
       position := ⟨1, 2, 3⟩, rotation := ⟨0, 0, 0⟩, scale := ⟨1, 1, 1⟩,
       parent_id := .pyNone, child_position := .pyNone,
       level := .pyNum 0 } : AssemblyProduct).scale = ⟨1, 1, 1⟩ := by
  have hp : AssemblyProduct.ofDict productDictW = some
      { id := .pyStr "", product_id := .pyStr "x", name := .pyStr "",
        position := ⟨1, 2, 3⟩, rotation := ⟨0, 0, 0⟩, scale := ⟨1, 1, 1⟩,
        parent_id := .pyNone, child_position := .pyNone, level := .pyNum 0 } := by
    simp [AssemblyProduct.ofDict, productDictW, pyGet, List.lookup, coerceTriple, pyFloat]
  have h := c7_product_record productDictW _ hp
  exact ⟨hp, h.2.2.2.1 1 2 3 [] rfl, h.2.2.1 rfl⟩


theorem dxf_foldl_nonempty (env : String → LoadOutcome (List Entity2)) (fz : Rat)
    (ps : List DXFProduct) (st : List Entity2)
    (h : ∀ p ∈ ps, ∀ es, env (dxfFileName p) = .ok es → es ≠ []) :
    ps.foldl (dxfProcessProduct fz env) st =
      st ++ ps.flatMap (fun p =>
        match env (dxfFileName p) with
        | .ok es => es.map (entityTranslate (fz - p.z_offset_mm) p.y_offset_mm)
        | _ => []) := by
  induction ps generalizing st with
  | nil => simp
  | cons p ps ih =>
    rw [List.foldl_cons]
    have hstep : dxfProcessProduct fz env st p = st ++
        (match env (dxfFileName p) with
         | .ok es => es.map (entityTranslate (fz - p.z_offset_mm) p.y_offset_mm)
         | _ => []) := by
      cases henv : env (dxfFileName p) with
      | missing => simp [dxfProcessProduct, henv]
      | raisedError => simp [dxfProcessProduct, henv]
      | ok es =>
        have hne : es ≠ [] := h p (by simp) es henv
        have hlen : ¬ es.length = 0 := by simpa [List.length_eq_zero] using hne
        simp [dxfProcessProduct, henv, hlen]
    rw [hstep, ih _ (fun q hq => h q (by simp [hq]))]
    cases henv : env (dxfFileName p) <;> simp [henv, List.append_assoc]

/-- Claim C2 (amended): provided every successfully read DXF file holds at
least one entity, the entities imported for each product `p` are those of
its file translated by exactly
`((first.position.z - p.position.z) * 1000, p.position.y * 1000)`, and the
translation applied to the first product's own entities leaves X
untouched (X translation exactly 0). -/
theorem c2_relative_translations (env : String → LoadOutcome (List Entity2))
    (p0 : DXFProduct) (rest : List DXFProduct)
    (h : ∀ p ∈ p0 :: rest, ∀ es, env (dxfFileName p) = .ok es → es ≠ []) :
    dxfAssembleEntities env (p0 :: rest) =
      (p0 :: rest).flatMap (fun p =>
        match env (dxfFileName p) with
        | .ok es => es.map (fun (e : Entity2) =>
            (e.1 + (p0.position.z - p.position.z) * 1000, e.2 + p.position.y * 1000))
        | _ => []) ∧
    (match env (dxfFileName p0) with
     | .ok es => es.map (fun (e : Entity2) =>
         (e.1 + (p0.position.z - p0.position.z) * 1000, e.2 + p0.position.y * 1000))
     | _ => ([] : List Entity2)) =
      (match env (dxfFileName p0) with
       | .ok es => es.map (fun (e : Entity2) => (e.1, e.2 + p0.position.y * 1000))
       | _ => []) := by
  have hfun : ∀ p : DXFProduct,
      (match env (dxfFileName p) with
       | .ok es => es.map (entityTranslate (p0.z_offset_mm - p.z_offset_mm) p.y_offset_mm)
       | _ => ([] : List Entity2)) =
      (match env (dxfFileName p) with
       | .ok es => es.map (fun (e : Entity2) =>
           (e.1 + (p0.position.z - p.position.z) * 1000, e.2 + p.position.y * 1000))
       | _ => []) := by
    intro p
    cases env (dxfFileName p) with
    | ok es =>
      simp only []
      apply List.map_congr_left
      intro e _
      simp only [entityTranslate, DXFProduct.z_offset_mm, DXFProduct.y_offset_mm,
        Prod.mk.injEq, and_true, true_and]
      ring_nf
      try rfl
    | missing => rfl
    | raisedError => rfl
  constructor
  · show (p0 :: rest).foldl (dxfProcessProduct p0.z_offset_mm env) [] = _
    rw [dxf_foldl_nonempty env p0.z_offset_mm (p0 :: rest) [] h, List.nil_append]
    exact congrArg _ (funext hfun)
  · cases env (dxfFileName p0) with
    | ok es =>
      simp only []
      apply List.map_congr_left
      intro e _
      simp only [Prod.mk.injEq, and_true, true_and]
      ring_nf
      try rfl
    | missing => rfl
    | raisedError => rfl

/-- Counterexample to C2 as stated: the first product's single entity at
`(0, 0)` should receive an X translation of exactly 0 and a Y translation
of 0, yet when a later product's file is read successfully with zero
entities, Python's `entities_list[-0:]` slice re-translates the whole
modelspace, and the output entity ends up at `(-1000, 0)`. -/
theorem c2_counterexample :
    dxfEnvCex (dxfFileName dxfRefProduct) = .ok [(0, 0)] ∧
    dxfRefProduct.position.y = 0 ∧ dxfRefProduct.position.z = 0 ∧
    dxfEnvCex (dxfFileName dxfEmptyProduct) = .ok [] ∧
    dxfAssembleEntities dxfEnvCex [dxfRefProduct, dxfEmptyProduct] = [(-1000, 0)] ∧
    [((-1000 : Rat), (0 : Rat))] ≠ [((0 : Rat), (0 : Rat))] := by
  refine ⟨rfl, rfl, rfl, rfl, ?_, by norm_num⟩
  show [dxfRefProduct, dxfEmptyProduct].foldl
      (dxfProcessProduct dxfRefProduct.z_offset_mm dxfEnvCex) [] = _
  simp [dxfProcessProduct, dxfEnvCex, dxfFileName, dxfRefProduct, dxfEmptyProduct,
    mkDxfProduct, pyToStr, DXFProduct.z_offset_mm, DXFProduct.y_offset_mm, entityTranslate]
  try norm_num

/-- Witness for the amended C2: two products at `z = 5 m` and `z = 3 m`
with one entity each; the hypothesis (every read file is non-empty) holds
and the output is each file translated by the relative offsets. -/
theorem c2_relative_translations_witness :
    dxfAssembleEntities dxfEnvW [dxfProdA, dxfProdB] =
      [dxfProdA, dxfProdB].flatMap (fun p =>
        match dxfEnvW (dxfFileName p) with
        | .ok es => es.map (fun (e : Entity2) =>
            (e.1 + (dxfProdA.position.z - p.position.z) * 1000, e.2 + p.position.y * 1000))
        | _ => []) := by
  refine (c2_relative_translations dxfEnvW dxfProdA [dxfProdB] ?_).1
  intro p hp es hes
  rcases List.mem_cons.mp hp with h1 | hp2
  · subst h1
    simp [dxfEnvW, dxfFileName, dxfProdA, mkDxfProduct, pyToStr] at hes
    simp [← hes]
  · rcases List.mem_singleton.mp hp2 with h2
    subst h2
    simp [dxfEnvW, dxfFileName, dxfProdB, mkDxfProduct, pyToStr] at hes
    simp [← hes]

theorem stepLoadShapes_eq_flatMap (cosF sinF : Rat → Rat)
    (env : String → LoadOutcome OccShape) (ps : List AssemblyProduct) :
    stepLoadShapes cosF sinF env ps = ps.flatMap (fun p =>
      match env (stpFileName p) with
      | .ok sh => [applyTransformation sh (createTransformation cosF sinF p)]
      | _ => []) := by
  suffices key : ∀ (qs : List AssemblyProduct) (st : List OccShape),
      qs.foldl (fun shapes p =>
        match env (stpFileName p) with
        | .missing => shapes
        | .raisedError => shapes
        | .ok sh => shapes ++ [applyTransformation sh (createTransformation cosF sinF p)]) st =
      st ++ qs.flatMap (fun p =>
        match env (stpFileName p) with
        | .ok sh => [applyTransformation sh (createTransformation cosF sinF p)]
        | _ => []) by
    simpa [stepLoadShapes] using key ps []
  intro qs
  induction qs with
  | nil => intro st; simp
  | cons p qs ih =>
    intro st
    rw [List.foldl_cons]
    cases henv : env (stpFileName p) <;> simp [henv, ih, List.append_assoc]

theorem dxf_foldl_length (env : String → LoadOutcome (List Entity2)) (fz : Rat)
    (ps : List DXFProduct) (st : List Entity2) :
    (ps.foldl (dxfProcessProduct fz env) st).length =
      st.length + (ps.map (fun p =>
        match env (dxfFileName p) with
        | .ok es => es.length
        | _ => 0)).sum := by
  induction ps generalizing st with
  | nil => simp
  | cons p ps ih =>
    rw [List.foldl_cons, ih]
    have hstep : (dxfProcessProduct fz env st p).length =
        st.length + (match env (dxfFileName p) with
          | .ok es => es.length
          | _ => 0) := by
      cases henv : env (dxfFileName p) with
      | missing => simp [dxfProcessProduct, henv]
      | raisedError => simp [dxfProcessProduct, henv]
      | ok es =>
        by_cases hlen : es.length = 0
        · simp [dxfProcessProduct, henv, hlen]
        · simp [dxfProcessProduct, henv, hlen]
    rw [hstep]
    simp only [List.map_cons, List.sum_cons]
    omega

theorem flatMap_eq_nil_of_all {α β : Type} (l : List α) (f : α → List β) :
    l.flatMap f = [] ↔ ∀ x ∈ l, f x = [] := by
  induction l with
  | nil => simp
  | cons x l ih => simp [List.flatMap_cons, List.append_eq_nil, ih]

theorem listNatSum_eq_zero (l : List Nat) : l.sum = 0 ↔ ∀ x ∈ l, x = 0 := by
  induction l with
  | nil => simp
  | cons x l ih => simp [List.sum_cons, Nat.add_eq_zero, ih]

/-- Claim C3 (amended): during batch import, a product whose file is
missing or whose processing raises is skipped and the loop continues;
`STEPAssembler.assemble` returns `True` exactly when at least one product
imported (and the export succeeds); `DXFAssembler.assemble` returns `True`
exactly when at least one product contributed at least one entity (and the
save succeeds) — a product whose file is read successfully but holds zero
entities does not count as a success for the DXF assembler. -/
theorem c3_skip_and_return :
    (∀ (cosF sinF : Rat → Rat) (env : String → LoadOutcome OccShape)
        (ps1 ps2 : List AssemblyProduct) (p : AssemblyProduct),
      (∀ sh, env (stpFileName p) ≠ .ok sh) →
      stepLoadShapes cosF sinF env (ps1 ++ p :: ps2) =
        stepLoadShapes cosF sinF env (ps1 ++ ps2)) ∧
    (∀ (cosF sinF : Rat → Rat) (env : String → LoadOutcome OccShape)
        (exportOk : Bool) (ps : List AssemblyProduct),
      stepAssembleResult cosF sinF env exportOk ps = true ↔
        ((∃ p ∈ ps, ∃ sh, env (stpFileName p) = .ok sh) ∧ exportOk = true)) ∧
    (∀ (env : String → LoadOutcome (List Entity2)) (fz : Rat) (st : List Entity2)
        (ps1 ps2 : List DXFProduct) (p : DXFProduct),
      (∀ es, env (dxfFileName p) ≠ .ok es) →
      (ps1 ++ p :: ps2).foldl (dxfProcessProduct fz env) st =
        (ps1 ++ ps2).foldl (dxfProcessProduct fz env) st) ∧
    (∀ (env : String → LoadOutcome (List Entity2)) (saveOk : Bool)
        (ps : List DXFProduct),
      dxfAssembleResult env saveOk ps = true ↔
        ((∃ p ∈ ps, ∃ es, env (dxfFileName p) = .ok es ∧ es ≠ []) ∧ saveOk = true)) := by
  refine ⟨?_, ?_, ?_, ?_⟩
  · intro cosF sinF env ps1 ps2 p hskip
    rw [stepLoadShapes_eq_flatMap, stepLoadShapes_eq_flatMap]
    have hp0 : (match env (stpFileName p) with
        | .ok sh => [applyTransformation sh (createTransformation cosF sinF p)]
        | _ => ([] : List OccShape)) = [] := by
      cases henv : env (stpFileName p) with
      | ok sh => exact absurd henv (hskip sh)
      | missing => rfl
      | raisedError => rfl
    simp [List.flatMap_append, List.flatMap_cons, hp0]
  · intro cosF sinF env exportOk ps
    rw [show stepAssembleResult cosF sinF env exportOk ps =
        (if (stepLoadShapes cosF sinF env ps).isEmpty then false else exportOk) from rfl]
    rw [stepLoadShapes_eq_flatMap]
    by_cases hemp : ps.flatMap (fun p =>
        match env (stpFileName p) with
        | .ok sh => [applyTransformation sh (createTransformation cosF sinF p)]
        | _ => []) = []
    · rw [hemp]
      simp only [List.isEmpty_nil, if_true]
      constructor
      · intro hfalse; exact absurd hfalse (by simp)
      · rintro ⟨⟨p, hp, sh, hsh⟩, -⟩
        have hpc := (flatMap_eq_nil_of_all ps _).mp hemp p hp
        rw [hsh] at hpc
        cases hpc
    · have : (ps.flatMap (fun p =>
          match env (stpFileName p) with
          | .ok sh => [applyTransformation sh (createTransformation cosF sinF p)]
          | _ => [])).isEmpty = false := by
        simpa [List.isEmpty_iff] using hemp
      rw [this]
      simp only [Bool.false_eq_true, if_false]
      have hex : ∃ p ∈ ps, ∃ sh, env (stpFileName p) = .ok sh := by
        by_contra hno
        apply hemp
        rw [flatMap_eq_nil_of_all]
        intro p hp
        push_neg at hno
        cases henv : env (stpFileName p) with
        | ok sh => exact absurd henv (hno p hp sh)
        | missing => rfl
        | raisedError => rfl
      simp [hex]
  · intro env fz st ps1 ps2 p hskip
    rw [List.foldl_append, List.foldl_append, List.foldl_cons]
    have hid : dxfProcessProduct fz env (ps1.foldl (dxfProcessProduct fz env) st) p =
        ps1.foldl (dxfProcessProduct fz env) st := by
      cases henv : env (dxfFileName p) with
      | ok es => exact absurd henv (hskip es)
      | missing => simp [dxfProcessProduct, henv]
      | raisedError => simp [dxfProcessProduct, henv]
    rw [hid]
  · intro env saveOk ps
    cases ps with
    | nil => simp [dxfAssembleResult]
    | cons p0 rest =>
      rw [show dxfAssembleResult env saveOk (p0 :: rest) =
          (if ((p0 :: rest).foldl (dxfProcessProduct p0.z_offset_mm env) []).length = 0
           then false else saveOk) from rfl]
      rw [dxf_foldl_length]
      simp only [List.length_nil, Nat.zero_add]
      by_cases hz : ((p0 :: rest).map (fun p =>
          match env (dxfFileName p) with
          | .ok es => es.length
          | _ => 0)).sum = 0
      · rw [if_pos hz]
        constructor
        · intro hfalse; exact absurd hfalse (by simp)
        · rintro ⟨⟨p, hp, es, henv, hne⟩, -⟩
          have h0 := (listNatSum_eq_zero _).mp hz _ (List.mem_map_of_mem _ hp)
          rw [henv] at h0
          simp only [List.length_eq_zero] at h0
          exact absurd h0 hne
      · rw [if_neg hz]
        have hex : ∃ p ∈ p0 :: rest, ∃ es, env (dxfFileName p) = .ok es ∧ es ≠ [] := by
          by_contra hno
          apply hz
          rw [listNatSum_eq_zero]
          intro n hn
          obtain ⟨p, hp, rfl⟩ := List.mem_map.mp hn
          push_neg at hno
          cases henv : env (dxfFileName p) with
          | ok es =>
            have hes : es = [] := hno p hp es henv
            subst hes
            rfl
          | missing => rfl
          | raisedError => rfl
        constructor
        · intro hsv; exact ⟨hex, hsv⟩
        · rintro ⟨-, hsv⟩; exact hsv

/-- Counterexample to C3 as stated: the single product's DXF file is read
successfully (so a product succeeded and nothing failed, and the save
would succeed), yet `DXFAssembler.assemble` returns `False` because the
file held zero entities. -/
theorem c3_counterexample :
    dxfEnvCex (dxfFileName dxfEmptyProduct) = .ok [] ∧
    dxfAssembleResult dxfEnvCex true [dxfEmptyProduct] = false := by
  refine ⟨rfl, ?_⟩
  simp [dxfAssembleResult, dxfProcessProduct, dxfEnvCex, dxfFileName, dxfEmptyProduct,
    mkDxfProduct, pyToStr]

/-- Witness for the amended C3: a STEP batch with one present and one
missing file assembles successfully, and a DXF batch with one non-empty
file assembles successfully. -/
theorem c3_skip_and_return_witness :
    stepAssembleResult cosOne sinZero stepEnvW true [stepProdA, stepProdB] = true ∧
    dxfAssembleResult dxfEnvW true [dxfProdA] = true := by
  constructor
  · exact (c3_skip_and_return.2.1 cosOne sinZero stepEnvW true [stepProdA, stepProdB]).mpr
      ⟨⟨stepProdA, by simp, [⟨0, 0, 0⟩], rfl⟩, rfl⟩
  · exact (c3_skip_and_return.2.2.2 dxfEnvW true [dxfProdA]).mpr
      ⟨⟨dxfProdA, by simp, [(1, 1)], rfl, by simp⟩, rfl⟩

theorem err_facts_400 (e0 m0 : String) :
    (∃ e m, HResponse.jsonError 400 e0 m0 = .jsonError 400 e m) ∧
    (¬ ∃ e m, HResponse.jsonError 400 e0 m0 = .jsonError 500 e m) ∧
    (∀ st e m, HResponse.jsonError 400 e0 m0 = .jsonError st e m → st = 400 ∨ st = 500) := by
  refine ⟨⟨e0, m0, rfl⟩, ?_, ?_⟩
  · rintro ⟨e, m, h⟩
    injection h with h1
    exact absurd h1 (by decide)
  · intro st e m h
    injection h with h1
    exact Or.inl h1.symm

theorem err_facts_500 (e0 m0 : String) :
    (¬ ∃ e m, HResponse.jsonError 500 e0 m0 = .jsonError 400 e m) ∧
    (∃ e m, HResponse.jsonError 500 e0 m0 = .jsonError 500 e m) ∧
    (∀ st e m, HResponse.jsonError 500 e0 m0 = .jsonError st e m → st = 400 ∨ st = 500) := by
  refine ⟨?_, ⟨e0, m0, rfl⟩, ?_⟩
  · rintro ⟨e, m, h⟩
    injection h with h1
    exact absurd h1 (by decide)
  · intro st e m h
    injection h with h1
    exact Or.inr h1.symm

theorem file_facts (p : FsPath) (dn : String) :
    (¬ ∃ e m, HResponse.fileResponse p dn = .jsonError 400 e m) ∧
    (¬ ∃ e m, HResponse.fileResponse p dn = .jsonError 500 e m) ∧
    (∀ st e m, HResponse.fileResponse p dn = .jsonError st e m → st = 400 ∨ st = 500) := by
  refine ⟨?_, ?_, ?_⟩
  · rintro ⟨e, m, h⟩; cases h
  · rintro ⟨e, m, h⟩; cases h
  · intro st e m h; cases h

/-- Claim C5: every error response of `/assemble` is a JSON body with
`error` and `message` fields and status 400 or 500; status 400 exactly for
the validation failures (no assembly data, invalid JSON, missing / empty /
non-list products, missing uploaded STEP file) and status 500 exactly for
assembly failure, missing output file, or an unexpected exception. -/
theorem c5_error_classification (a : AssembleArgs) :
    ((∃ e m, (assembleHandler a).response = .jsonError 400 e m) ↔ assembleBadRequest a) ∧
    ((∃ e m, (assembleHandler a).response = .jsonError 500 e m) ↔ assembleServerError a) ∧
    (∀ st e m, (assembleHandler a).response = .jsonError st e m → st = 400 ∨ st = 500) := by
  by_cases hs : a.formAssemblyData.getD "" = ""
  · have hr : (assembleHandler a).response = .jsonError 400 "No assembly data provided"
        "Please provide assemblyData field with products array" := by
      simp [assembleHandler, hs]
    rw [hr]
    exact ⟨iff_of_true (err_facts_400 _ _).1 (Or.inl hs),
      iff_of_false (err_facts_400 _ _).2.1 (by simp [assembleServerError, hs]),
      (err_facts_400 _ _).2.2⟩
  · cases hp : a.parseJson (a.formAssemblyData.getD "") with
    | none =>
      have hr : (assembleHandler a).response =
          .jsonError 400 "Invalid JSON in assemblyData" a.jsonErrorMsg := by
        simp [assembleHandler, hs, hp]
      rw [hr]
      exact ⟨iff_of_true (err_facts_400 _ _).1 (Or.inr (Or.inl ⟨hs, hp⟩)),
        iff_of_false (err_facts_400 _ _).2.1 (by simp [assembleServerError, hs, hp]),
        (err_facts_400 _ _).2.2⟩
    | some v =>
      cases v with
      | pyNone =>
        have hr : (assembleHandler a).response =
            .jsonError 500 "Internal server error" a.excMsg := by
          simp [assembleHandler, hs, hp]
        rw [hr]
        exact ⟨iff_of_false (err_facts_500 _ _).1 (by simp [assembleBadRequest, hs, hp]),
          iff_of_true (err_facts_500 _ _).2.1 (Or.inl ⟨.pyNone, hs, hp, rfl⟩),
          (err_facts_500 _ _).2.2⟩
      | pyStr s =>
        have hr : (assembleHandler a).response =
            .jsonError 500 "Internal server error" a.excMsg := by
          simp [assembleHandler, hs, hp]
        rw [hr]
        exact ⟨iff_of_false (err_facts_500 _ _).1 (by simp [assembleBadRequest, hs, hp]),
          iff_of_true (err_facts_500 _ _).2.1 (Or.inl ⟨.pyStr s, hs, hp, rfl⟩),
          (err_facts_500 _ _).2.2⟩
      | pyNum q =>
        have hr : (assembleHandler a).response =
            .jsonError 500 "Internal server error" a.excMsg := by
          simp [assembleHandler, hs, hp]
        rw [hr]
        exact ⟨iff_of_false (err_facts_500 _ _).1 (by simp [assembleBadRequest, hs, hp]),
          iff_of_true (err_facts_500 _ _).2.1 (Or.inl ⟨.pyNum q, hs, hp, rfl⟩),
          (err_facts_500 _ _).2.2⟩
      | pyList l =>
        have hr : (assembleHandler a).response =
            .jsonError 500 "Internal server error" a.excMsg := by
          simp [assembleHandler, hs, hp]
        rw [hr]
        exact ⟨iff_of_false (err_facts_500 _ _).1 (by simp [assembleBadRequest, hs, hp]),
          iff_of_true (err_facts_500 _ _).2.1 (Or.inl ⟨.pyList l, hs, hp, rfl⟩),
          (err_facts_500 _ _).2.2⟩
      | pyDict d =>
        by_cases hprod : ((productsVal d).isTruthy && (productsVal d).isList) = true
        · have hand : (productsVal d).isTruthy = true ∧ (productsVal d).isList = true := by
            simpa using hprod
          cases hc : collectProductIds (productsVal d).listItems with
          | none =>
            have hr : (assembleHandler a).response =
                .jsonError 500 "Internal server error" a.excMsg := by
              simp [assembleHandler, hs, hp, hprod, hc]
            rw [hr]
            exact ⟨iff_of_false (err_facts_500 _ _).1
                (by simp [assembleBadRequest, hs, hp, hprod, hc]
                    exact hand),
              iff_of_true (err_facts_500 _ _).2.1 (Or.inr (Or.inl ⟨d, hs, hp, hprod, hc⟩)),
              (err_facts_500 _ _).2.2⟩
          | some pids =>
            by_cases hm : (assembleMissing a pids).isEmpty = true
            · have hml : assembleMissing a pids = [] := by simpa using hm
              cases hexc : a.exc with
              | some m0 =>
                have hr : (assembleHandler a).response =
                    .jsonError 500 "Internal server error" m0 := by
                  simp [assembleHandler, hs, hp, hprod, hc, hm, hexc]
                rw [hr]
                exact ⟨iff_of_false (err_facts_500 _ _).1
                    (by simp [assembleBadRequest, hs, hp, hprod, hc, hm]
                        exact ⟨hand, fun _ _ => hml⟩),
                  iff_of_true (err_facts_500 _ _).2.1
                    (Or.inr (Or.inr ⟨d, pids, hs, hp, hprod, hc, hm,
                      Or.inl (by simp [hexc])⟩)),
                  (err_facts_500 _ _).2.2⟩
              | none =>
                by_cases hok : a.assembleOk = true
                · by_cases hoe : a.outputExists = true
                  · have hr : (assembleHandler a).response = .fileResponse
                        (outputFolderPath ++ [a.sessionId ++ "_" ++ fileNameVal d ++ ".zip"])
                        (fileNameVal d ++ ".zip") := by
                      simp [assembleHandler, hs, hp, hprod, hc, hm, hexc, hok, hoe]
                    rw [hr]
                    exact ⟨iff_of_false (file_facts _ _).1
                        (by simp [assembleBadRequest, hs, hp, hprod, hc, hm]
                            exact ⟨hand, fun _ _ => hml⟩),
                      iff_of_false (file_facts _ _).2.1
                        (by simp [assembleServerError, hs, hp, hprod, hc, hm, hexc, hok, hoe]
                            exact rfl),
                      (file_facts _ _).2.2⟩
                  · have hoef : a.outputExists = false := by simpa using hoe
                    have hr : (assembleHandler a).response =
                        .jsonError 500 "Output file not created"
                          "Assembly completed but output file was not generated" := by
                      simp [assembleHandler, hs, hp, hprod, hc, hm, hexc, hok, hoef]
                    rw [hr]
                    exact ⟨iff_of_false (err_facts_500 _ _).1
                        (by simp [assembleBadRequest, hs, hp, hprod, hc, hm]
                            exact ⟨hand, fun _ _ => hml⟩),
                      iff_of_true (err_facts_500 _ _).2.1
                        (Or.inr (Or.inr ⟨d, pids, hs, hp, hprod, hc, hm,
                          Or.inr (Or.inr hoef)⟩)),
                      (err_facts_500 _ _).2.2⟩
                · have hokf : a.assembleOk = false := by simpa using hok
                  have hr : (assembleHandler a).response =
                      .jsonError 500 "Assembly failed"
                        "Failed to create STEP assembly from provided products" := by
                    simp [assembleHandler, hs, hp, hprod, hc, hm, hexc, hokf]
                  rw [hr]
                  exact ⟨iff_of_false (err_facts_500 _ _).1
                      (by simp [assembleBadRequest, hs, hp, hprod, hc, hm]
                          exact ⟨hand, fun _ _ => hml⟩),
                    iff_of_true (err_facts_500 _ _).2.1
                      (Or.inr (Or.inr ⟨d, pids, hs, hp, hprod, hc, hm,
                        Or.inr (Or.inl hokf)⟩)),
                    (err_facts_500 _ _).2.2⟩
            · have hmf : (assembleMissing a pids).isEmpty = false := by simpa using hm
              have hr : (assembleHandler a).response = .jsonError 400 "Missing STEP files"
                  ("STEP files not uploaded for products: " ++
                    String.intercalate ", " (assembleMissing a pids)) := by
                simp [assembleHandler, hs, hp, hprod, hc, hmf]
              rw [hr]
              exact ⟨iff_of_true (err_facts_400 _ _).1
                  (Or.inr (Or.inr (Or.inr ⟨d, pids, hs, hp, hprod, hc, hmf⟩))),
                iff_of_false (err_facts_400 _ _).2.1
                  (by simp [assembleServerError, hs, hp, hprod, hc, hmf]
                      exact ⟨rfl, fun _ _ hmm => absurd hmm (by simpa using hmf)⟩),
                (err_facts_400 _ _).2.2⟩
        · have hpf : ((productsVal d).isTruthy && (productsVal d).isList) = false := by
            simpa using hprod
          have hr : (assembleHandler a).response = .jsonError 400 "No products provided"
              "Please provide an array of products to assemble" := by
            simp [assembleHandler, hs, hp, hpf]
          rw [hr]
          exact ⟨iff_of_true (err_facts_400 _ _).1 (Or.inr (Or.inr (Or.inl ⟨d, hs, hp, hpf⟩))),
            iff_of_false (err_facts_400 _ _).2.1
              (by simp [assembleServerError, hs, hp, hpf]
                  have himp : (productsVal d).isTruthy = true → (productsVal d).isList = false := by
                    simpa using hpf
                  refine ⟨rfl, fun ht' hl' => ?_, fun ht' hl' => ?_⟩ <;>
                    exact absurd hl' (by simp [himp ht'])),
            (err_facts_400 _ _).2.2⟩

/-- Witness for C5: the request with no `assemblyData` field at all is a
bad request and is answered with a 400 JSON error body. -/
theorem c5_error_classification_witness :
    assembleBadRequest assembleArgsNoData ∧
    (∃ e m, (assembleHandler assembleArgsNoData).response = .jsonError 400 e m) :=
  ⟨Or.inl rfl, (c5_error_classification assembleArgsNoData).1.mpr (Or.inl rfl)⟩

theorem zip_ne_stp_suffix (x : String) : x ++ ".zip" ≠ x ++ ".stp" := by
  intro h
  have hd := congrArg String.data h
  simp only [String.data_append] at hd
  have hc := List.append_cancel_left hd
  simp at hc

/-- Claim C6: a successful `/assemble` response means the JSON assembly
data parsed, the assembler wrote the STEP file, the handler zipped it with
entry name `fileName ++ ".stp"`, deleted the uncompressed STEP file, and
responded with the ZIP file (a path distinct from the raw STEP file),
scheduling the ZIP and the session folder for removal after sending. -/
theorem c6_success_pipeline (a : AssembleArgs) (p : FsPath) (dn : String)
    (h : (assembleHandler a).response = .fileResponse p dn) :
    ∃ d : List (String × PyVal),
      a.parseJson (a.formAssemblyData.getD "") = some (.pyDict d) ∧
      p = outputFolderPath ++ [a.sessionId ++ "_" ++ fileNameVal d ++ ".zip"] ∧
      dn = fileNameVal d ++ ".zip" ∧
      (assembleHandler a).ops =
        [.makeDirs (uploadFolder ++ [a.sessionId])] ++
        (assembleSavedNames a).map (fun n =>
          FsOp.saveUpload (uploadFolder ++ [a.sessionId] ++ [n])) ++
        [.writeFile (outputFolderPath ++ [a.sessionId ++ "_" ++ fileNameVal d ++ ".stp"]),
         .writeZip p [fileNameVal d ++ ".stp"],
         .removeFile (outputFolderPath ++ [a.sessionId ++ "_" ++ fileNameVal d ++ ".stp"])] ∧
      p ≠ outputFolderPath ++ [a.sessionId ++ "_" ++ fileNameVal d ++ ".stp"] ∧
      (assembleHandler a).closeOps =
        [.removeFile p, .removeTree (uploadFolder ++ [a.sessionId])] := by
  by_cases hs : a.formAssemblyData.getD "" = ""
  · simp [assembleHandler, hs] at h
  · cases hp : a.parseJson (a.formAssemblyData.getD "") with
    | none => simp [assembleHandler, hs, hp] at h
    | some v =>
      cases v with
      | pyNone => simp [assembleHandler, hs, hp] at h
      | pyStr s => simp [assembleHandler, hs, hp] at h
      | pyNum q => simp [assembleHandler, hs, hp] at h
      | pyList l => simp [assembleHandler, hs, hp] at h
      | pyDict d =>
        by_cases hprod : ((productsVal d).isTruthy && (productsVal d).isList) = true
        · cases hc : collectProductIds (productsVal d).listItems with
          | none => simp [assembleHandler, hs, hp, hprod, hc] at h
          | some pids =>
            by_cases hm : (assembleMissing a pids).isEmpty = true
            · cases hexc : a.exc with
              | some m0 => simp [assembleHandler, hs, hp, hprod, hc, hm, hexc] at h
              | none =>
                by_cases hok : a.assembleOk = true
                · by_cases hoe : a.outputExists = true
                  · have hshape : (assembleHandler a).response = .fileResponse
                        (outputFolderPath ++ [a.sessionId ++ "_" ++ fileNameVal d ++ ".zip"])
                        (fileNameVal d ++ ".zip") := by
                      simp [assembleHandler, hs, hp, hprod, hc, hm, hexc, hok, hoe]
                    rw [hshape] at h
                    injection h with h1 h2
                    subst h1
                    subst h2
                    refine ⟨d, rfl, rfl, rfl, ?_, ?_, ?_⟩
                    · simp [assembleHandler, hs, hp, hprod, hc, hm, hexc, hok, hoe,
                        List.append_assoc]
                    · intro heq
                      have hx := List.append_cancel_left
                        (congrArg id heq : outputFolderPath ++ _ = outputFolderPath ++ _)
                      simp only [List.cons.injEq, and_true] at hx
                      exact zip_ne_stp_suffix (a.sessionId ++ "_" ++ fileNameVal d) hx
                    · simp [assembleHandler, hs, hp, hprod, hc, hm, hexc, hok, hoe]
                  · have hoef : a.outputExists = false := by simpa using hoe
                    simp [assembleHandler, hs, hp, hprod, hc, hm, hexc, hok, hoef] at h
                · have hokf : a.assembleOk = false := by simpa using hok
                  simp [assembleHandler, hs, hp, hprod, hc, hm, hexc, hokf] at h
            · have hmf : (assembleMissing a pids).isEmpty = false := by simpa using hm
              simp [assembleHandler, hs, hp, hprod, hc, hmf] at h
        · have hpf : ((productsVal d).isTruthy && (productsVal d).isList) = false := by
            simpa using hprod
          simp [assembleHandler, hs, hp, hpf] at h

/-- Witness for C6: the concrete valid `/assemble` request `assembleArgsOk`
is answered with the ZIP file, whose path differs from the STEP file's. -/
theorem c6_success_pipeline_witness :
    (assembleHandler assembleArgsOk).response =
      .fileResponse (outputFolderPath ++ ["s1" ++ "_" ++ "F" ++ ".zip"]) ("F" ++ ".zip") ∧
    (outputFolderPath ++ ["s1" ++ "_" ++ "F" ++ ".zip"]) ≠
      (outputFolderPath ++ ["s1" ++ "_" ++ "F" ++ ".stp"]) := by
  have hresp : (assembleHandler assembleArgsOk).response =
      .fileResponse (outputFolderPath ++ ["s1" ++ "_" ++ "F" ++ ".zip"]) ("F" ++ ".zip") := by
    rfl
  obtain ⟨d, hd, hp1, hdn, hops, hne, hclose⟩ :=
    c6_success_pipeline assembleArgsOk _ _ hresp
  refine ⟨hresp, ?_⟩
  have hdq : d = assembleDictOk := by
    have hd' := hd
    simp [assembleArgsOk] at hd'
    exact hd'.symm
  subst hdq
  have hval : fileNameVal assembleDictOk = "F" := by rfl
  rw [hp1] at hne
  exact hne

theorem discipline_mk (r : HandlerResult) (sid : String)
    (h1 : r.ops.head? = some (.makeDirs (sessionPathOf sid)))
    (h2 : ∀ q, FsOp.saveUpload q ∈ r.ops → ∃ n, q = sessionPathOf sid ++ [n])
    (h3 : (FsOp.removeTree (sessionPathOf sid) ∈ r.ops ∨
      FsOp.removeTree (sessionPathOf sid) ∈ r.closeOps) ↔
        ((∃ p dn, r.response = .fileResponse p dn) ∨
         (∃ m, r.response = .jsonError 500 "Internal server error" m)))
    (h4 : ∀ op ∈ r.ops ++ r.closeOps,
      (FsOp.path op).take 3 = sessionPathOf sid ∨
      (FsOp.path op).take 2 = outputFolderPath) :
    handlerSessionDiscipline r sid := by
  refine ⟨h1, h2, h3, h4, ?_⟩
  intro sid2 hne op hop heq
  rcases h4 op hop with h3p | h2p
  · rw [heq] at h3p
    simp [sessionPathOf, uploadFolder] at h3p
    exact hne h3p
  · have ht : (FsOp.path op).take 2 = ((FsOp.path op).take 3).take 2 := by
      rw [List.take_take]; norm_num
    rw [ht, heq] at h2p
    simp [sessionPathOf, uploadFolder, outputFolderPath] at h2p

theorem convert_session_discipline (c : ConvertArgs) :
    handlerSessionDiscipline (convertHandler c) c.sessionId := by
  unfold convertHandler
  dsimp only
  repeat' split
  all_goals refine discipline_mk _ _ ?_ ?_ ?_ ?_
  all_goals first
    | (simp [sessionPathOf]; done)
    | (intro q hq
       simp only [List.mem_append, List.mem_singleton, List.mem_cons, List.mem_map,
         List.not_mem_nil, or_false, false_or, reduceCtorEq, FsOp.saveUpload.injEq] at hq
       first
       | exact hq.elim
       | exact ⟨_, hq.symm⟩
       | (rcases hq with hq | hq
          · exact ⟨_, hq.symm⟩
          · exact hq.elim)
       ; done)
    | (simp only [List.cons_append, List.nil_append, List.append_nil, List.append_assoc]
       intro op hop
       fin_cases hop <;> simp [FsOp.path, sessionPathOf, uploadFolder, outputFolderPath])
    | skip

theorem assemble_session_discipline (a : AssembleArgs) :
    handlerSessionDiscipline (assembleHandler a) a.sessionId := by
  unfold assembleHandler
  dsimp only
  repeat' split
  all_goals refine discipline_mk _ _ ?_ ?_ ?_ ?_
  all_goals first
    | (simp [sessionPathOf]; done)
    | (intro q hq
       simp only [List.mem_append, List.mem_singleton, List.mem_cons, List.mem_map,
         List.not_mem_nil, or_false, false_or, reduceCtorEq, FsOp.saveUpload.injEq] at hq
       first
       | exact hq.elim
       | exact ⟨_, hq.symm⟩
       | (obtain ⟨n, hn, hEq⟩ := hq
          exact ⟨n, hEq.symm⟩)
       | (rcases hq with hq | hq
          · exact ⟨_, hq.symm⟩
          · exact hq.elim)
       | (rcases hq with ⟨n, hn, hEq⟩ | hq
          · exact ⟨n, hEq.symm⟩
          · exact hq.elim)
       ; done)
    | ((try simp only [List.cons_append, List.nil_append, List.append_nil, List.append_assoc])
       simp [FsOp.path, sessionPathOf, uploadFolder, outputFolderPath,
         List.forall_mem_append, List.forall_mem_cons, List.forall_mem_map]
       ; done)
    | (dsimp only
       repeat' (refine List.forall_mem_append.mpr ⟨?_, ?_⟩)
       all_goals first
         | (intro op hop
            simp only [List.mem_map] at hop
            obtain ⟨n, hn, rfl⟩ := hop
            simp [FsOp.path, sessionPathOf, uploadFolder, outputFolderPath])
         | (intro op hop
            fin_cases hop <;>
              simp [FsOp.path, sessionPathOf, uploadFolder, outputFolderPath])
       done)
    | skip

theorem ca_session_discipline (b : ConvertAssemblyArgs) :
    handlerSessionDiscipline (convertAssemblyHandler b) b.sessionId := by
  unfold convertAssemblyHandler
  dsimp only
  repeat' split
  all_goals refine discipline_mk _ _ ?_ ?_ ?_ ?_
  all_goals first
    | (simp [sessionPathOf]; done)
    | (intro q hq
       simp only [List.mem_append, List.mem_singleton, List.mem_cons, List.mem_map,
         List.not_mem_nil, or_false, false_or, reduceCtorEq, FsOp.saveUpload.injEq] at hq
       first
       | exact hq.elim
       | exact ⟨_, hq.symm⟩
       | (obtain ⟨n, hn, hEq⟩ := hq
          exact ⟨n, hEq.symm⟩)
       | (rcases hq with hq | hq
          · exact ⟨_, hq.symm⟩
          · exact hq.elim)
       | (rcases hq with ⟨n, hn, hEq⟩ | hq
          · exact ⟨n, hEq.symm⟩
          · exact hq.elim)
       ; done)
    | (dsimp only
       repeat' (refine List.forall_mem_append.mpr ⟨?_, ?_⟩)
       all_goals first
         | (intro op hop
            simp only [List.mem_map] at hop
            obtain ⟨n, hn, rfl⟩ := hop
            simp [FsOp.path, sessionPathOf, uploadFolder, outputFolderPath])
         | (intro op hop
            fin_cases hop <;>
              simp [FsOp.path, sessionPathOf, uploadFolder, outputFolderPath])
       done)
    | skip

/-- Claim C8 (amended): every request to `/assemble`, `/convert-to-dxf`
or `/convert-assembly-to-dxf` first creates its own session folder under
the upload directory, saves all uploaded files only inside it, never
touches another session's folder, and removes the session folder after a
successful response is sent or when an unexpected exception is raised —
but a handled validation or failure error response (400, or the 500
answers other than `Internal server error`) returns with the session
folder left in place. -/
theorem c8_session_scoping (a : AssembleArgs) (c : ConvertArgs) (b : ConvertAssemblyArgs) :
    handlerSessionDiscipline (assembleHandler a) a.sessionId ∧
    handlerSessionDiscipline (convertHandler c) c.sessionId ∧
    handlerSessionDiscipline (convertAssemblyHandler b) b.sessionId :=
  ⟨assemble_session_discipline a, convert_session_discipline c, ca_session_discipline b⟩

/-- Counterexample to C8 as stated: the `/assemble` request with no
assembly data is answered 400, yet its freshly created session folder is
never removed — neither during the request nor in any close callback. -/
theorem c8_counterexample :
    (assembleHandler assembleArgsNoData).response = .jsonError 400 "No assembly data provided"
      "Please provide assemblyData field with products array" ∧
    (assembleHandler assembleArgsNoData).ops = [FsOp.makeDirs (sessionPathOf "s0")] ∧
    (assembleHandler assembleArgsNoData).closeOps = [] ∧
    FsOp.removeTree (sessionPathOf "s0") ∉
      (assembleHandler assembleArgsNoData).ops ++ (assembleHandler assembleArgsNoData).closeOps := by
  refine ⟨rfl, rfl, rfl, ?_⟩
  intro hmem
  simp [assembleHandler, assembleArgsNoData, sessionPathOf] at hmem

/-- Witness for the amended C8: the successful `/convert-to-dxf` request
`convertArgsOk` does remove its session folder in the close callback. -/
theorem c8_session_scoping_witness :
    (convertHandler convertArgsOk).closeOps = [FsOp.removeTree (sessionPathOf "s3")] ∧
    (FsOp.removeTree (sessionPathOf "s3") ∈ (convertHandler convertArgsOk).ops ∨
     FsOp.removeTree (sessionPathOf "s3") ∈ (convertHandler convertArgsOk).closeOps) := by
  have h := (c8_session_scoping assembleArgsNoData convertArgsOk caArgsOk).2.1
  refine ⟨rfl, ?_⟩
  exact (h.2.2.1).mpr (Or.inl ⟨_, _, rfl⟩)
